import Mathlib

/-!
# SIPConnection: connection / registration lifecycle

A shallow embedding of `src/sip-connection.c`: the property setter and getter, the
three lifecycle entry points of the base-connection class (`start_connecting`,
`disconnected`, `shut_down`) with the calls they make on the Sofia-SIP engine, and the
D-Bus method RequestHandles with the calls it makes on the handle repository.

Every call that crosses into the engine, the resolver helpers or the base class is
recorded as an `Event`; a lifecycle function returns the state it leaves behind, the
events it emitted in program order, and its return value (`none` when a `g_assert`
stopped it).
-/

namespace SipConnection

/-! ## Foreign types -/

/-- A handle of the handle repository; `0` is the invalid handle. -/
abbrev TpHandle := Nat

/-- Pointer to the Sofia event root. -/
abbrev su_root_t := Nat

/-- Pointer to a NUA stack instance (the engine handle). -/
abbrev nua_t := Nat

/-- Pointer to a NUA operation handle. -/
abbrev nua_handle_t := Nat

/-- Connection status of the base class (`base->status`). -/
inductive TpConnectionStatus
  | TP_INTERNAL_CONNECTION_STATUS_NEW
  | TP_CONNECTION_STATUS_CONNECTED
  | TP_CONNECTION_STATUS_CONNECTING
  | TP_CONNECTION_STATUS_DISCONNECTED
  deriving DecidableEq

/-- Error codes of the `TP_ERRORS` domain that reach this file. -/
inductive TpError
  | TP_ERROR_NOT_AVAILABLE
  | TP_ERROR_INVALID_HANDLE
  | TP_ERROR_INVALID_ARGUMENT
  | TP_ERROR_NOT_IMPLEMENTED
  deriving DecidableEq

/-- A `GError` of the `TP_ERRORS` domain. -/
structure GError where
  code : TpError
  message : String
  deriving DecidableEq

/-- Scheme tag of a parsed URL (`url_type` of `url_t`). -/
inductive url_type_e
  | url_sip
  | url_sips
  | url_any
  deriving DecidableEq

/-- The fields of Sofia's `url_t` that the connection reads. -/
structure url_t where
  url_type : url_type_e
  url_user : Option String
  url_host : Option String
  deriving DecidableEq

/-- Keepalive mechanisms, `SIPConnectionKeepaliveMechanism` of `sip-connection.h`. -/
inductive SIPConnectionKeepaliveMechanism
  | SIP_CONNECTION_KEEPALIVE_AUTO
  | SIP_CONNECTION_KEEPALIVE_NONE
  | SIP_CONNECTION_KEEPALIVE_REGISTER
  | SIP_CONNECTION_KEEPALIVE_OPTIONS
  | SIP_CONNECTION_KEEPALIVE_STUN
  deriving DecidableEq

/-- A `GValue` as handed to the property setter. -/
inductive GValue
  | v_string (s : Option String)
  | v_boolean (b : Bool)
  | v_int (i : Int)
  | v_uint (u : Nat)
  | v_enum (e : SIPConnectionKeepaliveMechanism)
  | v_pointer (p : Option su_root_t)
  deriving DecidableEq

/-- Reads a string value; a value of another type yields `NULL`. -/
def g_value_get_string : GValue → Option String
  | .v_string s => s
  | _ => none

/-- Copies a string value (`g_value_dup_string`). -/
def g_value_dup_string (value : GValue) : Option String :=
  g_value_get_string value

/-- Reads a boolean value; a value of another type yields `FALSE`. -/
def g_value_get_boolean : GValue → Bool
  | .v_boolean b => b
  | _ => false

/-- Reads an int value; a value of another type yields `0`. -/
def g_value_get_int : GValue → Int
  | .v_int i => i
  | _ => 0

/-- Reads an unsigned value; a value of another type yields `0`. -/
def g_value_get_uint : GValue → Nat
  | .v_uint u => u
  | _ => 0

/-- Reads an enum value; a value of another type yields the enum's zero member. -/
def g_value_get_enum : GValue → SIPConnectionKeepaliveMechanism
  | .v_enum e => e
  | _ => .SIP_CONNECTION_KEEPALIVE_AUTO

/-- Reads a pointer value; a value of another type yields `NULL`. -/
def g_value_get_pointer : GValue → Option su_root_t
  | .v_pointer p => p
  | _ => none

/-! ## Handle repository -/

/-- Modelled from the spec: one entry of the Handle Registry, a normalised name and the
number of references held on it. An entry whose count is `0` has been released. -/
structure HandleEntry where
  name : String
  refcount : Nat
  deriving DecidableEq

/-- Modelled from the spec: the Handle Registry (the dynamic handle repository of the
base library is not part of the sources). It maps normalised address strings to
stable identifiers; handle `h > 0` names entry `h - 1`. -/
structure TpHandleRepo where
  entries : List HandleEntry
  deriving DecidableEq

/-- Modelled from the spec: the registry's lookup, the handle of the first live entry
carrying `s`, counted from `base + 1`. -/
def handle_lookup (s : String) : List HandleEntry → Nat → Option TpHandle
  | [], _ => none
  | e :: es, base =>
    if e.name = s ∧ 0 < e.refcount then some (base + 1) else handle_lookup s es (base + 1)

/-- Modelled from the spec: the registry takes one more reference on the entry at
position `i`. -/
def handle_ref : List HandleEntry → Nat → List HandleEntry
  | [], _ => []
  | e :: es, 0 => { e with refcount := e.refcount + 1 } :: es
  | e :: es, i + 1 => e :: handle_ref es i

/-- Modelled from the spec: `ensure(address) -> handle`. Normalises the name, returns
the handle of the existing entry (taking a reference) or creates one; on a name that
does not normalise it returns handle `0` and the error. -/
def tp_handle_ensure (normalize : String → Except GError String) (repo : TpHandleRepo)
    (id : String) : TpHandleRepo × TpHandle × Option GError :=
  match normalize id with
  | .error e => (repo, 0, some e)
  | .ok s =>
    match handle_lookup s repo.entries 0 with
    | some h => ({ entries := handle_ref repo.entries (h - 1) }, h, none)
    | none => ({ entries := repo.entries ++ [⟨s, 1⟩] }, repo.entries.length + 1, none)

/-- Modelled from the spec: `inspect(handle) -> address`, `NULL` for the invalid
handle and for a handle that was released. -/
def tp_handle_inspect (repo : TpHandleRepo) (handle : TpHandle) : Option String :=
  if handle = 0 then none
  else
    match repo.entries[handle - 1]? with
    | some e => if 0 < e.refcount then some e.name else none
    | none => none

/-! ## Connection state -/

/-- The Sofia adapter object (`SIPConnectionSofia`): its back pointer to the
connection (`true` while attached) and the event root. -/
structure SIPConnectionSofia where
  conn : Bool
  sofia_root : Option su_root_t
  deriving DecidableEq

/-- The private part of the connection object. -/
structure SIPConnectionPrivate where
  sofia : Option SIPConnectionSofia
  sofia_nua : Option nua_t
  register_op : Option nua_handle_t
  account_url : Option url_t
  address : Option String
  auth_user : Option String
  password : Option String
  transport : Option String
  proxy_url : Option url_t
  registrar_url : Option url_t
  loose_routing : Bool
  keepalive_mechanism : SIPConnectionKeepaliveMechanism
  keepalive_interval : Int
  discover_binding : Bool
  discover_stun : Bool
  stun_host : Option String
  stun_port : Nat
  local_ip_address : Option String
  local_port : Nat
  extra_auth_user : Option String
  extra_auth_password : Option String
  deriving DecidableEq

/-- The fields of the base connection object that this file touches. -/
structure TpBaseConnection where
  status : TpConnectionStatus
  self_handle : TpHandle
  contact_repo : TpHandleRepo
  deriving DecidableEq

/-- The connection object: base-class part and private part. -/
structure SIPConnection where
  parent : TpBaseConnection
  priv : SIPConnectionPrivate
  deriving DecidableEq

/-- Calls that leave the connection object, in the order they are made, and the
completion events that the engine delivers through `sip_connection_sofia_callback`.
A helper that takes the connection as its argument records the private state it was
handed. The last event is the completion of a resolver query, which the resolver
delivers to the STUN helpers some time after they started the query. -/
inductive Event
  | nua_create (sofia_root : su_root_t) (from_str : Option String) (url : Option url_t)
      (sips_url : Option url_t) (m_username : Option String) (result : Option nua_t)
  | sip_conn_update_proxy_and_transport (self : SIPConnectionPrivate)
  | sip_conn_update_nua_outbound (self : SIPConnectionPrivate)
  | sip_conn_update_nua_keepalive_interval (self : SIPConnectionPrivate)
  | sip_conn_update_nua_contact_features (self : SIPConnectionPrivate)
  | sip_conn_resolv_stun_server (self : SIPConnectionPrivate) (stun_host : String)
  | sip_conn_discover_stun_server (self : SIPConnectionPrivate)
  | nua_get_params (nua : nua_t)
  | sip_conn_create_register_handle (self : SIPConnectionPrivate) (self_handle : TpHandle)
      (result : Option nua_handle_t)
  | nua_register (op : nua_handle_t)
  | nua_unregister (op : nua_handle_t)
  | nua_handle_unref (op : nua_handle_t)
  | nua_set_params_registrar (nua : nua_t) (registrar : Option url_t)
  | sofia_conn_cleared
  | nua_shutdown (nua : nua_t)
  | sip_connection_sofia_destroy (sofia : SIPConnectionSofia)
  | tp_base_connection_finish_shutdown
  | nua_r_register (op : nua_handle_t) (status : Nat)
  | nua_r_unregister (op : nua_handle_t) (status : Nat)
  | nua_r_shutdown (nua : nua_t) (status : Nat)
  | resolver_completion (answer : Option String)
  deriving DecidableEq

/-- The collaborators whose code is outside this file: URI normalisation and the
local-URL and registration-handle helpers of `sip-connection-helpers`, and Sofia's
`url_make` and `nua_create`. Each may fail (`NULL`, or an error). -/
structure Env where
  sip_conn_normalize_uri : SIPConnectionPrivate → String → Except GError String
  url_make : String → Option url_t
  sip_conn_get_local_url : SIPConnectionPrivate → Option url_t
  nua_create : su_root_t → Option String → Option url_t → Option url_t → Option String →
    Option nua_t
  sip_conn_create_register_handle : SIPConnectionPrivate → TpHandle → Option nua_handle_t

/-- What one call of a connection method leaves behind: the state, the events emitted
in order, and the returned value; `result = none` means a `g_assert` failed. -/
structure Call (α : Type) where
  self : SIPConnection
  events : List Event
  result : Option α

/-- A failed `g_assert` at the entry of a method: nothing was done. -/
def Call.aborted {α : Type} (self : SIPConnection) : Call α :=
  { self := self, events := [], result := none }

/-! ## Properties -/

/-- Property identifiers of the connection object. -/
inductive PropertyId
  | PROP_ADDRESS
  | PROP_AUTH_USER
  | PROP_PASSWORD
  | PROP_TRANSPORT
  | PROP_PROXY
  | PROP_REGISTRAR
  | PROP_LOOSE_ROUTING
  | PROP_KEEPALIVE_MECHANISM
  | PROP_KEEPALIVE_INTERVAL
  | PROP_DISCOVER_BINDING
  | PROP_DISCOVER_STUN
  | PROP_STUN_SERVER
  | PROP_STUN_PORT
  | PROP_LOCAL_IP_ADDRESS
  | PROP_LOCAL_PORT
  | PROP_EXTRA_AUTH_USER
  | PROP_EXTRA_AUTH_PASSWORD
  | PROP_SOFIA_ROOT
  | LAST_PROPERTY
  deriving DecidableEq

/-- Parses the string of a value into a URL, `NULL` for a `NULL` string. -/
def priv_url_from_string_value (env : Env) (value : GValue) : Option url_t :=
  match g_value_get_string value with
  | some url_str => env.url_make url_str
  | none => none

/-- The property setter. The helpers `sip_conn_update_nua_outbound` and
`sip_conn_update_nua_keepalive_interval` are recorded as events carrying the private
state after the store. -/
def sip_connection_set_property (env : Env) (self : SIPConnection)
    (property_id : PropertyId) (value : GValue) : Call Unit :=
  let priv := self.priv
  let done (p : SIPConnectionPrivate) (evs : List Event) : Call Unit :=
    { self := { self with priv := p }, events := evs, result := some () }
  match property_id with
  | .PROP_ADDRESS => done { priv with address := g_value_dup_string value } []
  | .PROP_AUTH_USER => done { priv with auth_user := g_value_dup_string value } []
  | .PROP_PASSWORD => done { priv with password := g_value_dup_string value } []
  | .PROP_TRANSPORT => done { priv with transport := g_value_dup_string value } []
  | .PROP_PROXY => done { priv with proxy_url := priv_url_from_string_value env value } []
  | .PROP_REGISTRAR =>
    let p := { priv with registrar_url := priv_url_from_string_value env value }
    match p.sofia_nua with
    | some nua => done p [.nua_set_params_registrar nua p.registrar_url]
    | none => done p []
  | .PROP_LOOSE_ROUTING => done { priv with loose_routing := g_value_get_boolean value } []
  | .PROP_KEEPALIVE_MECHANISM =>
    let p := { priv with keepalive_mechanism := g_value_get_enum value }
    if p.sofia_nua.isSome then
      done p [.sip_conn_update_nua_outbound p, .sip_conn_update_nua_keepalive_interval p]
    else done p []
  | .PROP_KEEPALIVE_INTERVAL =>
    let p := { priv with keepalive_interval := g_value_get_int value }
    if p.sofia_nua.isSome
        ∧ p.keepalive_mechanism ≠ .SIP_CONNECTION_KEEPALIVE_NONE then
      done p [.sip_conn_update_nua_keepalive_interval p]
    else done p []
  | .PROP_DISCOVER_BINDING =>
    let p := { priv with discover_binding := g_value_get_boolean value }
    if p.sofia_nua.isSome then done p [.sip_conn_update_nua_outbound p] else done p []
  | .PROP_DISCOVER_STUN => done { priv with discover_stun := g_value_get_boolean value } []
  | .PROP_STUN_PORT => done { priv with stun_port := g_value_get_uint value } []
  | .PROP_STUN_SERVER => done { priv with stun_host := g_value_dup_string value } []
  | .PROP_LOCAL_IP_ADDRESS =>
    done { priv with local_ip_address := g_value_dup_string value } []
  | .PROP_LOCAL_PORT => done { priv with local_port := g_value_get_uint value } []
  | .PROP_EXTRA_AUTH_USER =>
    done { priv with extra_auth_user := g_value_dup_string value } []
  | .PROP_EXTRA_AUTH_PASSWORD =>
    done { priv with extra_auth_password := g_value_dup_string value } []
  | .PROP_SOFIA_ROOT =>
    match priv.sofia with
    | none => done priv []
    | some sofia =>
      done { priv with sofia := some { sofia with sofia_root := g_value_get_pointer value } } []
  | .LAST_PROPERTY => done priv []

/-- Stores a string in a value that holds a string; another value is left alone. -/
def g_value_set_string (value : GValue) (v_string : Option String) : GValue :=
  match value with
  | .v_string _ => .v_string v_string
  | other => other

/-- Stores a boolean in a value that holds a boolean. -/
def g_value_set_boolean (value : GValue) (v_boolean : Bool) : GValue :=
  match value with
  | .v_boolean _ => .v_boolean v_boolean
  | other => other

/-- Stores an int in a value that holds an int. -/
def g_value_set_int (value : GValue) (v_int : Int) : GValue :=
  match value with
  | .v_int _ => .v_int v_int
  | other => other

/-- Stores an unsigned in a value that holds an unsigned. -/
def g_value_set_uint (value : GValue) (v_uint : Nat) : GValue :=
  match value with
  | .v_uint _ => .v_uint v_uint
  | other => other

/-- Stores an enum member in a value that holds an enum. -/
def g_value_set_enum (value : GValue) (v_enum : SIPConnectionKeepaliveMechanism) : GValue :=
  match value with
  | .v_enum _ => .v_enum v_enum
  | other => other

/-- Stores a pointer in a value that holds a pointer. -/
def g_value_set_pointer (value : GValue) (v_pointer : Option su_root_t) : GValue :=
  match value with
  | .v_pointer _ => .v_pointer v_pointer
  | other => other

/-- Stores the text of a URL, `NULL` for no URL; `url_as_string` is Sofia's printer. -/
def priv_value_set_url_as_string (url_as_string : url_t → String) (value : GValue)
    (url : Option url_t) : GValue :=
  match url with
  | none => g_value_set_string value none
  | some u => g_value_set_string value (some (url_as_string u))

/-- The property getter: `value` comes in initialised to the property's type and goes
out holding the field. An identifier without a case of its own falls to the default
branch, which only warns and leaves `value` as it came. -/
def sip_connection_get_property (url_as_string : url_t → String) (self : SIPConnection)
    (property_id : PropertyId) (value : GValue) : GValue :=
  let priv := self.priv
  match property_id with
  | .PROP_ADDRESS => g_value_set_string value priv.address
  | .PROP_AUTH_USER => g_value_set_string value priv.auth_user
  | .PROP_TRANSPORT => g_value_set_string value priv.transport
  | .PROP_PASSWORD => g_value_set_string value priv.password
  | .PROP_PROXY => priv_value_set_url_as_string url_as_string value priv.proxy_url
  | .PROP_REGISTRAR => priv_value_set_url_as_string url_as_string value priv.registrar_url
  | .PROP_LOOSE_ROUTING => g_value_set_boolean value priv.loose_routing
  | .PROP_KEEPALIVE_MECHANISM => g_value_set_enum value priv.keepalive_mechanism
  | .PROP_KEEPALIVE_INTERVAL => g_value_set_int value priv.keepalive_interval
  | .PROP_DISCOVER_BINDING => g_value_set_boolean value priv.discover_binding
  | .PROP_DISCOVER_STUN => g_value_set_boolean value priv.discover_stun
  | .PROP_STUN_SERVER => g_value_set_string value priv.stun_host
  | .PROP_STUN_PORT => g_value_set_uint value priv.stun_port
  | .PROP_LOCAL_IP_ADDRESS => g_value_set_string value priv.local_ip_address
  | .PROP_LOCAL_PORT => g_value_set_uint value priv.local_port
  | .PROP_SOFIA_ROOT =>
    match priv.sofia with
    | none => value
    | some sofia => g_value_set_pointer value sofia.sofia_root
  | _ => value

/-! ## Lifecycle -/

/-- The state `sip_connection_init` leaves behind on a zero-filled object: the adapter
exists and points back at the connection, nothing else is set (the construct-time
defaults arrive afterwards through the property setter). The base class starts in
status NEW with no self handle; `repo` is the contact repository it created. -/
def sip_connection_init (repo : TpHandleRepo) : SIPConnection :=
  { parent :=
      { status := .TP_INTERNAL_CONNECTION_STATUS_NEW, self_handle := 0, contact_repo := repo }
    priv :=
      { sofia := some { conn := true, sofia_root := none }
        sofia_nua := none
        register_op := none
        account_url := none
        address := none
        auth_user := none
        password := none
        transport := none
        proxy_url := none
        registrar_url := none
        loose_routing := false
        keepalive_mechanism := .SIP_CONNECTION_KEEPALIVE_AUTO
        keepalive_interval := 0
        discover_binding := false
        discover_stun := false
        stun_host := none
        stun_port := 0
        local_ip_address := none
        local_port := 0
        extra_auth_user := none
        extra_auth_password := none } }

/-- The STUN step of `start_connecting`: resolve the configured host, else start SRV
discovery when the flag is set, else nothing. -/
def start_connecting_stun (priv : SIPConnectionPrivate) : List Event :=
  match priv.stun_host with
  | some stun_host => [.sip_conn_resolv_stun_server priv stun_host]
  | none => if priv.discover_stun then [.sip_conn_discover_stun_server priv] else []

/-- Last part of `start_connecting`, entered once the stack exists: applies the
configuration-dependent tags, starts STUN resolution or discovery, requests a dump of
the stack configuration, creates the registration handle and registers. `error` is
the caller's `GError **` as left by the earlier steps. -/
def start_connecting_register (env : Env) (base : TpBaseConnection)
    (priv : SIPConnectionPrivate) (nua : nua_t) (sip_address : Option String)
    (error : Option GError) : Call (Bool × Option GError) :=
  let ev_config : List Event :=
    [.sip_conn_update_proxy_and_transport priv, .sip_conn_update_nua_outbound priv,
     .sip_conn_update_nua_keepalive_interval priv, .sip_conn_update_nua_contact_features priv]
  let ev_stun := start_connecting_stun priv
  let op := env.sip_conn_create_register_handle priv base.self_handle
  let events : List Event :=
    ev_config ++ ev_stun
      ++ [.nua_get_params nua, .sip_conn_create_register_handle priv base.self_handle op]
  match op with
  | none =>
    { self := { parent := base, priv := { priv with register_op := none } }
      events := events
      result := some (false,
        some ⟨.TP_ERROR_NOT_AVAILABLE,
          "Unable to create registration handle for address " ++ sip_address.getD ""⟩) }
  | some register_op =>
    { self := { parent := base, priv := { priv with register_op := some register_op } }
      events := events ++ [.nua_register register_op]
      result := some (true, error) }

/-- The `nua_create` call of `start_connecting`: the stack is created from the event
root, with the inspected account address as From, the local URL (also as SIPS URL when
it is one) and the user part of the account URL. The constant tags are not recorded. -/
def start_connecting_nua_create (env : Env) (priv : SIPConnectionPrivate)
    (sofia_root : su_root_t) (sip_address : Option String) (account_url : url_t) :
    Option nua_t :=
  let local_url := env.sip_conn_get_local_url priv
  env.nua_create sofia_root sip_address local_url
    (local_url.filter (fun u => u.url_type = .url_sips)) account_url.url_user

/-- The event recording that call and what it returned. -/
def start_connecting_nua_create_event (env : Env) (priv : SIPConnectionPrivate)
    (sofia_root : su_root_t) (sip_address : Option String) (account_url : url_t) : Event :=
  let local_url := env.sip_conn_get_local_url priv
  .nua_create sofia_root sip_address local_url
    (local_url.filter (fun u => u.url_type = .url_sips)) account_url.url_user
    (start_connecting_nua_create env priv sofia_root sip_address account_url)

/-- Middle part of `start_connecting` ("step: create stack instance"), entered once
the account URL exists. -/
def start_connecting_stack (env : Env) (base : TpBaseConnection)
    (priv : SIPConnectionPrivate) (sofia_root : su_root_t) (sip_address : Option String)
    (account_url : url_t) (error : Option GError) : Call (Bool × Option GError) :=
  let ev_create := start_connecting_nua_create_event env priv sofia_root sip_address account_url
  match start_connecting_nua_create env priv sofia_root sip_address account_url with
  | none =>
    { self := { parent := base, priv := { priv with sofia_nua := none } }
      events := [ev_create]
      result := some (false, some ⟨.TP_ERROR_NOT_AVAILABLE, "Unable to create SIP stack"⟩) }
  | some nua =>
    let c := start_connecting_register env base { priv with sofia_nua := some nua } nua
      sip_address error
    { c with events := ev_create :: c.events }

/-- The connect entry point. Returns `(TRUE, _)` or `(FALSE, error)`, where `error` is
what the caller finds in its `GError **` afterwards. -/
def sip_connection_start_connecting (env : Env) (self : SIPConnection) :
    Call (Bool × Option GError) :=
  let base := self.parent
  let priv := self.priv
  if base.status ≠ .TP_INTERNAL_CONNECTION_STATUS_NEW then Call.aborted self else
  match priv.sofia with
  | none => Call.aborted self
  | some sofia =>
  match sofia.sofia_root with
  | none => Call.aborted self
  | some sofia_root =>
  match priv.address with
  | none => { self := self, events := [], result := some (false, none) }
  | some address =>
  let ensured := tp_handle_ensure (env.sip_conn_normalize_uri priv) base.contact_repo address
  let base := { base with contact_repo := ensured.1, self_handle := ensured.2.1 }
  let error := ensured.2.2
  if base.self_handle = 0 then
    { self := { parent := base, priv := priv }, events := [], result := some (false, error) }
  else
  let sip_address := tp_handle_inspect base.contact_repo base.self_handle
  match sip_address.bind env.url_make with
  | none =>
    { self := { parent := base, priv := { priv with account_url := none } }, events := []
      result := some (false,
        some ⟨.TP_ERROR_NOT_AVAILABLE, "Failed to create the account URI"⟩) }
  | some account_url =>
    start_connecting_stack env base { priv with account_url := some account_url } sofia_root
      sip_address account_url error

/-- Called after the connection becomes disconnected: disposes of the register use. -/
def sip_connection_disconnected (self : SIPConnection) : Call Unit :=
  match self.priv.register_op with
  | some register_op =>
    { self := { self with priv := { self.priv with register_op := none } }
      events := [.nua_unregister register_op, .nua_handle_unref register_op]
      result := some () }
  | none => { self := self, events := [], result := some () }

/-- The shutdown entry point: detaches the adapter, then asks the engine to shut down
or, with no engine, destroys the adapter, and finishes the shutdown. -/
def sip_connection_shut_down (self : SIPConnection) : Call Unit :=
  let priv := self.priv
  if priv.register_op ≠ none then Call.aborted self else
  match priv.sofia with
  | none => Call.aborted self
  | some sofia =>
  let sofia := { sofia with conn := false }
  let ev_engine : List Event :=
    match priv.sofia_nua with
    | some nua => [.nua_shutdown nua]
    | none => [.sip_connection_sofia_destroy sofia]
  { self := { self with priv := { priv with sofia := none, sofia_nua := none } }
    events := [.sofia_conn_cleared] ++ ev_engine ++ [.tp_base_connection_finish_shutdown]
    result := some () }

/-- The base object after the account handle was ensured for address `a`: the
repository as `tp_handle_ensure` left it and the returned handle as self handle. -/
def base_after_ensure (env : Env) (s : SIPConnection) (a : String) : TpBaseConnection :=
  { s.parent with
    contact_repo :=
      (tp_handle_ensure (env.sip_conn_normalize_uri s.priv) s.parent.contact_repo a).1
    self_handle :=
      (tp_handle_ensure (env.sip_conn_normalize_uri s.priv) s.parent.contact_repo a).2.1 }

/-! ## Runs of lifecycle calls -/

/-- Modelled from the spec: the status bookkeeping of the base connection class around
a connect request (the class is not part of the sources). A connect request leaves
the idle state for Connecting when `start_connecting` succeeds; a fatal connect
failure moves directly to Disconnected. -/
def status_after_start_connecting (ret : Bool) : TpConnectionStatus :=
  if ret then .TP_CONNECTION_STATUS_CONNECTING else .TP_CONNECTION_STATUS_DISCONNECTED

/-- The calls the base class and the property system make on a connection. -/
inductive Op
  | set_property (property_id : PropertyId) (value : GValue)
  | start_connecting
  | disconnected
  | shut_down
  deriving DecidableEq

/-- A connection together with everything it has emitted so far; `aborted` is set
once a `g_assert` has failed, after which the process is gone and nothing more
happens. -/
structure World where
  self : SIPConnection
  trace : List Event
  aborted : Bool

/-- The world of a connection that has emitted nothing yet. -/
def World.start (self : SIPConnection) : World :=
  { self := self, trace := [], aborted := false }

/-- One call on the connection. A call whose `g_assert` fails aborts the world. After
`start_connecting` returns, the base class records the new status. -/
def step (env : Env) (w : World) (op : Op) : World :=
  if w.aborted then w else
  match op with
  | .set_property property_id value =>
    let c := sip_connection_set_property env w.self property_id value
    { w with self := c.self, trace := w.trace ++ c.events }
  | .start_connecting =>
    let c := sip_connection_start_connecting env w.self
    match c.result with
    | none => { w with aborted := true }
    | some r =>
      { w with
        self := { c.self with
                  parent := { c.self.parent with
                              status := status_after_start_connecting r.1 } }
        trace := w.trace ++ c.events }
  | .disconnected =>
    let c := sip_connection_disconnected w.self
    { w with self := c.self, trace := w.trace ++ c.events }
  | .shut_down =>
    let c := sip_connection_shut_down w.self
    match c.result with
    | none => { w with aborted := true }
    | some _ => { w with self := c.self, trace := w.trace ++ c.events }

/-- A sequence of calls, in order. -/
def run (env : Env) (w : World) (ops : List Op) : World :=
  ops.foldl (step env) w

/-! ## Observations on traces -/

/-- An engine was created: `nua_create` returned a handle. -/
def Event.is_engine_created : Event → Bool
  | .nua_create _ _ _ _ _ (some _) => true
  | _ => false

/-- A shutdown request on an engine. -/
def Event.is_engine_shutdown : Event → Bool
  | .nua_shutdown _ => true
  | _ => false

/-- A registration handle was created. -/
def Event.is_register_created : Event → Bool
  | .sip_conn_create_register_handle _ _ (some _) => true
  | _ => false

/-- An attempt to create a registration handle, whatever it returned. -/
def Event.is_register_create_call : Event → Bool
  | .sip_conn_create_register_handle _ _ _ => true
  | _ => false

/-- A reference on an operation handle was dropped. -/
def Event.is_handle_unref : Event → Bool
  | .nua_handle_unref _ => true
  | _ => false

/-- A register request. -/
def Event.is_register_request : Event → Bool
  | .nua_register _ => true
  | _ => false

/-- An unregister request. -/
def Event.is_unregister_request : Event → Bool
  | .nua_unregister _ => true
  | _ => false

/-- The engine reports that a registration succeeded (a 2xx final response). -/
def Event.is_register_success : Event → Bool
  | .nua_r_register _ status => decide (200 ≤ status ∧ status < 300)
  | _ => false

/-- The engine reports the completion of an unregistration. -/
def Event.is_unregister_completion : Event → Bool
  | .nua_r_unregister _ _ => true
  | _ => false

/-- The engine reports the completion of its shutdown. -/
def Event.is_shutdown_completion : Event → Bool
  | .nua_r_shutdown _ _ => true
  | _ => false

/-- The base class is told that shutdown is finished. -/
def Event.is_finish_shutdown : Event → Bool
  | .tp_base_connection_finish_shutdown => true
  | _ => false

/-- The adapter is destroyed directly. -/
def Event.is_sofia_destroy : Event → Bool
  | .sip_connection_sofia_destroy _ => true
  | _ => false

/-- The adapter's back pointer to the connection is cleared. -/
def Event.is_sofia_detach : Event → Bool
  | .sofia_conn_cleared => true
  | _ => false

/-- The proxy and transport configuration is applied to the engine. -/
def Event.is_proxy_and_transport_update : Event → Bool
  | .sip_conn_update_proxy_and_transport _ => true
  | _ => false

/-- The keepalive-interval update is applied to the engine. -/
def Event.is_keepalive_interval_update : Event → Bool
  | .sip_conn_update_nua_keepalive_interval _ => true
  | _ => false

/-- The resolver delivers the completion of a query. -/
def Event.is_resolver_completion : Event → Bool
  | .resolver_completion _ => true
  | _ => false

/-- An event delivered to the connection from outside (by the engine or the resolver)
rather than a call made by it. -/
def Event.is_delivered : Event → Bool
  | .nua_r_register _ _ => true
  | .nua_r_unregister _ _ => true
  | .nua_r_shutdown _ _ => true
  | .resolver_completion _ => true
  | _ => false

/-- Engine handles created and not yet shut down, over a trace. -/
def engines_alive (trace : List Event) : Int :=
  (trace.countP Event.is_engine_created : Int) - trace.countP Event.is_engine_shutdown

/-- Registration handles created and not yet unreferenced, over a trace. -/
def registrations_alive (trace : List Event) : Int :=
  (trace.countP Event.is_register_created : Int) - trace.countP Event.is_handle_unref

/-- No event satisfying `act` occurs before the first event satisfying `gate`. -/
def none_before (gate act : Event → Bool) : List Event → Bool
  | [] => true
  | e :: es => if gate e then true else if act e then false else none_before gate act es

/-- A resolver action started on behalf of STUN. -/
inductive StunAction
  | resolve (stun_host : String)
  | discover
  deriving DecidableEq

/-- The resolver action an event stands for, if any. -/
def Event.stun_action : Event → Option StunAction
  | .sip_conn_resolv_stun_server _ stun_host => some (.resolve stun_host)
  | .sip_conn_discover_stun_server _ => some .discover
  | _ => none

/-- The resolver actions of a trace, in order. -/
def stun_actions (trace : List Event) : List StunAction :=
  trace.filterMap Event.stun_action

/-- The STUN resolution mode as the spec words it: (a) an explicit host is resolved
directly, (b) with the discovery flag set and no explicit host a service-record lookup
is started, (c) otherwise STUN is skipped. -/
def spec_stun_mode (stun_host : Option String) (discover_stun : Bool) : List StunAction :=
  match stun_host, discover_stun with
  | some host, _ => [.resolve host]
  | none, true => [.discover]
  | none, false => []

/-! ## Concrete environments and connections -/

/-- An environment in which every collaborator succeeds: names normalise to
themselves, every URL parses as a `sip:` URL of user alice, the engine is `7` and the
registration handle `9`. -/
def env_ok : Env :=
  { sip_conn_normalize_uri := fun _ s => .ok s
    url_make := fun _ => some ⟨.url_sip, some "alice", some "example.com"⟩
    sip_conn_get_local_url := fun _ => none
    nua_create := fun _ _ _ _ _ => some 7
    sip_conn_create_register_handle := fun _ _ => some 9 }

/-- As `env_ok`, but no registration handle can be created. -/
def env_no_register : Env :=
  { env_ok with sip_conn_create_register_handle := fun _ _ => none }

/-- As `env_ok`, but no address normalises. -/
def env_no_normalize : Env :=
  { env_ok with
    sip_conn_normalize_uri := fun _ _ => .error ⟨.TP_ERROR_INVALID_HANDLE, "invalid SIP URI"⟩ }

/-- A freshly constructed connection whose event root is `1` and which has no
address. -/
def conn_no_address : SIPConnection :=
  (sip_connection_set_property env_ok (sip_connection_init ⟨[]⟩) .PROP_SOFIA_ROOT
    (.v_pointer (some 1))).self

/-- A freshly constructed connection with its construct-time properties set: event
root `1` and the account address. -/
def conn_alice : SIPConnection :=
  (sip_connection_set_property env_ok conn_no_address .PROP_ADDRESS
    (.v_string (some "sip:alice@example.com"))).self

/-- The connection `conn_alice` after a successful `start_connecting`. -/
def conn_registering : SIPConnection :=
  (sip_connection_start_connecting env_ok conn_alice).self

/-- The connection after `start_connecting` and `disconnected`: the engine is still
there, the registration handle is gone. -/
def conn_unregistered : SIPConnection :=
  (sip_connection_disconnected conn_registering).self

/-- The bookkeeping invariant of a run: the engine handles created exceed the shutdown
requests by one exactly when an engine handle is held, the registration handles
created exceed the unrefs by one exactly when a registration handle is held, and a
connection still in status NEW holds neither. -/
def lifecycle_invariant (w : World) : Prop :=
  (w.trace.countP Event.is_engine_created =
      w.trace.countP Event.is_engine_shutdown + (if w.self.priv.sofia_nua.isSome then 1 else 0)) ∧
  (w.trace.countP Event.is_register_created =
      w.trace.countP Event.is_handle_unref + (if w.self.priv.register_op.isSome then 1 else 0)) ∧
  (w.self.parent.status = .TP_INTERNAL_CONNECTION_STATUS_NEW →
      w.self.priv.sofia_nua = none ∧ w.self.priv.register_op = none)

/-- The connection `conn_registering` (engine `7`) after its keepalive mechanism was
set to None. -/
def conn_keepalive_none : SIPConnection :=
  (sip_connection_set_property env_ok conn_registering .PROP_KEEPALIVE_MECHANISM
    (.v_enum .SIP_CONNECTION_KEEPALIVE_NONE)).self


/-! ## RequestHandles -/

/-- The operations of the handle-repository interface (`TpHandleRepoIface`) that
RequestHandles calls, over the repository's state `R`. `tp_handle_ensure` returns the
handle, `0` with the error on failure; `tp_handle_client_hold` returns the error when
it fails and `none` when it succeeds. -/
structure TpHandleRepoIface (R : Type) where
  tp_handle_ensure : R → String → R × TpHandle × Option GError
  tp_handle_client_hold : R → String → TpHandle → R × Option GError
  tp_handle_unref : R → TpHandle → R
  tp_handle_client_release : R → String → TpHandle → R

/-- What surrounds one RequestHandles call: the repository interface, the number of
handle types of the base library, and what the reserved but not yet written slots of
the result array hold (`g_array_sized_new` does not clear them). -/
structure RequestHandlesEnv (R : Type) where
  repo_iface : TpHandleRepoIface R
  NUM_TP_HANDLE_TYPES : Nat
  array_storage : Nat → TpHandle

/-- The calls RequestHandles makes on the repository and on its result array, in
order. `g_array_index` records the index read and the length of the array then. -/
inductive RepoCall
  | tp_handle_ensure (name : String) (handle : TpHandle)
  | tp_handle_client_hold (client_name : String) (handle : TpHandle) (held : Bool)
  | tp_handle_unref (handle : TpHandle)
  | g_array_append_val (handle : TpHandle)
  | g_array_index (index : Nat) (len : Nat)
  | tp_handle_client_release (client_name : String) (handle : TpHandle)
  deriving DecidableEq

/-- What the method invocation is answered with: an error (`NULL` if none was set), or
the handles. -/
inductive Reply
  | dbus_g_method_return_error (error : Option GError)
  | tp_svc_connection_return_from_request_handles (handles : List TpHandle)
  deriving DecidableEq

/-- The outcome of one RequestHandles call: the repository afterwards (`none` if there
was none), the calls made, and the reply. -/
structure RequestHandlesCall (R : Type) where
  repo : Option R
  calls : List RepoCall
  reply : Reply

/-- Whether a handle type is one of the base library's; otherwise the error. -/
def tp_handle_type_is_valid (NUM_TP_HANDLE_TYPES : Nat) (handle_type : Nat) : Option GError :=
  if 0 < handle_type ∧ handle_type < NUM_TP_HANDLE_TYPES then none
  else some ⟨.TP_ERROR_INVALID_ARGUMENT, "invalid handle type"⟩

/-- The raw read `g_array_index (handles, guint, i)`: the element if it was written,
else whatever the reserved slot holds. -/
def g_array_index (storage : Nat → TpHandle) (handles : List TpHandle) (i : Nat) : TpHandle :=
  handles.getD i (storage i)

/-- The loop under `ERROR_IN_LOOP`, `for (; i >= 0; --i)`, entered with `n = i + 1`
iterations to go: it reads slot `n - 1` of the array, releases what it read from the
client, and goes on downwards to slot `0`. -/
def request_handles_rollback {R : Type} (env : RequestHandlesEnv R) (client_name : String)
    (handles : List TpHandle) : Nat → R → R × List RepoCall
  | 0, repo => (repo, [])
  | i + 1, repo =>
    let handle := g_array_index env.array_storage handles i
    let rest := request_handles_rollback env client_name handles i
      (env.repo_iface.tp_handle_client_release repo client_name handle)
    (rest.1,
      [.g_array_index i handles.length, .tp_handle_client_release client_name handle] ++ rest.2)

/-- The main loop of RequestHandles from iteration `i` on, over the names still to do:
ensure the name, hold the handle for the client, drop the connection's own reference
and append the handle; on a failure roll back and answer with the error. -/
def request_handles_loop {R : Type} (env : RequestHandlesEnv R) (client_name : String) :
    List String → Nat → R → List TpHandle → RequestHandlesCall R
  | [], _, repo, handles =>
    { repo := some repo, calls := []
      reply := .tp_svc_connection_return_from_request_handles handles }
  | name :: names, i, repo, handles =>
    let ensured := env.repo_iface.tp_handle_ensure repo name
    let handle := ensured.2.1
    if handle = 0 then
      let rolled := request_handles_rollback env client_name handles (i + 1) ensured.1
      { repo := some rolled.1
        calls := [.tp_handle_ensure name handle] ++ rolled.2
        reply := .dbus_g_method_return_error ensured.2.2 }
    else
      let held := env.repo_iface.tp_handle_client_hold ensured.1 client_name handle
      match held.2 with
      | some error =>
        let repo := env.repo_iface.tp_handle_unref held.1 handle
        let rolled := request_handles_rollback env client_name handles (i + 1) repo
        { repo := some rolled.1
          calls := [.tp_handle_ensure name handle,
                    .tp_handle_client_hold client_name handle false,
                    .tp_handle_unref handle] ++ rolled.2
          reply := .dbus_g_method_return_error (some error) }
      | none =>
        let repo := env.repo_iface.tp_handle_unref held.1 handle
        let rest := request_handles_loop env client_name names (i + 1) repo
          (handles ++ [handle])
        { rest with
          calls := [.tp_handle_ensure name handle,
                    .tp_handle_client_hold client_name handle true,
                    .tp_handle_unref handle,
                    .g_array_append_val handle] ++ rest.calls }

/-- The D-Bus method RequestHandles. `repo` is what `tp_base_connection_get_handles`
returned for the handle type (`none` for `NULL`), `client_name` the sender of the
invocation. -/
def sip_connection_request_handles {R : Type} (env : RequestHandlesEnv R)
    (self : SIPConnection) (repo : Option R) (handle_type : Nat) (names : List String)
    (client_name : String) : RequestHandlesCall R :=
  if self.parent.status ≠ .TP_CONNECTION_STATUS_CONNECTED then
    { repo := repo, calls := []
      reply := .dbus_g_method_return_error
        (some ⟨.TP_ERROR_NOT_AVAILABLE, "Connection is disconnected"⟩) }
  else
  match tp_handle_type_is_valid env.NUM_TP_HANDLE_TYPES handle_type with
  | some error =>
    { repo := repo, calls := [], reply := .dbus_g_method_return_error (some error) }
  | none =>
  match repo with
  | none =>
    { repo := none, calls := []
      reply := .dbus_g_method_return_error
        (some ⟨.TP_ERROR_NOT_IMPLEMENTED, "unsupported handle type"⟩) }
  | some repo => request_handles_loop env client_name names 0 repo []

/-- Modelled from the spec: the Handle Registry with its holders, the entries and one
lease `(client, handle)` per hold taken on behalf of a client. -/
structure HandleRegistry where
  repo : TpHandleRepo
  leases : List (String × TpHandle)
  deriving DecidableEq

/-- Modelled from the spec: the registry drops one reference on the entry at
position `i`. -/
def handle_unref : List HandleEntry → Nat → List HandleEntry
  | [], _ => []
  | e :: es, 0 => { e with refcount := e.refcount - 1 } :: es
  | e :: es, i + 1 => e :: handle_unref es i

/-- Modelled from the spec: the registry as a repository interface. A hold takes one
reference for the client and records the lease, and fails on a handle that is not
live; a release gives one lease back with its reference, and does nothing for a handle
the client does not hold. -/
def registry_iface (normalize : String → Except GError String) :
    TpHandleRepoIface HandleRegistry :=
  { tp_handle_ensure := fun reg id =>
      let ensured := tp_handle_ensure normalize reg.repo id
      ({ reg with repo := ensured.1 }, ensured.2.1, ensured.2.2)
    tp_handle_client_hold := fun reg client_name handle =>
      match tp_handle_inspect reg.repo handle with
      | none => (reg, some ⟨.TP_ERROR_INVALID_HANDLE, "unknown handle"⟩)
      | some _ =>
        ({ repo := { entries := handle_ref reg.repo.entries (handle - 1) }
           leases := (client_name, handle) :: reg.leases }, none)
    tp_handle_unref := fun reg handle =>
      if handle = 0 then reg
      else { reg with repo := { entries := handle_unref reg.repo.entries (handle - 1) } }
    tp_handle_client_release := fun reg client_name handle =>
      if (client_name, handle) ∈ reg.leases then
        { repo := { entries := handle_unref reg.repo.entries (handle - 1) }
          leases := reg.leases.erase (client_name, handle) }
      else reg }

/-- A concrete environment for RequestHandles: names normalise to themselves, except
the empty name, which is invalid; five handle types; the unset slots of the result
array hold `77`. -/
def env_registry : RequestHandlesEnv HandleRegistry :=
  { repo_iface := registry_iface (fun s =>
      if s = "" then .error ⟨.TP_ERROR_INVALID_HANDLE, "invalid SIP URI"⟩ else .ok s)
    NUM_TP_HANDLE_TYPES := 5
    array_storage := fun _ => 77 }

/-- The connection `conn_registering` once the base class has marked it connected. -/
def conn_connected : SIPConnection :=
  { conn_registering with
    parent := { conn_registering.parent with status := .TP_CONNECTION_STATUS_CONNECTED } }

/-- The contact registry of `conn_connected` with no lease taken yet. -/
def registry_connected : HandleRegistry :=
  { repo := conn_connected.parent.contact_repo, leases := [] }


/-- Every name in turn can be ensured and held for the client, on the repository as
the earlier names left it. -/
def names_ensured_and_held {R : Type} (iface : TpHandleRepoIface R) (client_name : String) :
    List String → R → Bool
  | [], _ => true
  | name :: names, repo =>
    let ensured := iface.tp_handle_ensure repo name
    let held := iface.tp_handle_client_hold ensured.1 client_name ensured.2.1
    decide (ensured.2.1 ≠ 0) && held.2.isNone &&
      names_ensured_and_held iface client_name names
        (iface.tp_handle_unref held.1 ensured.2.1)

/-- The handle `ensure` returns for each name in turn, on the repository as the
earlier names left it (ensured, held for the client, own reference dropped). -/
def ensured_handles {R : Type} (iface : TpHandleRepoIface R) (client_name : String) :
    List String → R → List TpHandle
  | [], _ => []
  | name :: names, repo =>
    let ensured := iface.tp_handle_ensure repo name
    let held := iface.tp_handle_client_hold ensured.1 client_name ensured.2.1
    ensured.2.1 :: ensured_handles iface client_name names
      (iface.tp_handle_unref held.1 ensured.2.1)

/-- The calls of a RequestHandles that succeeds on the given names with the given
handles: per name the ensure, the hold for the client, the unref of the connection's
own reference and the append to the result. -/
def request_handles_success_calls (client_name : String) :
    List (String × TpHandle) → List RepoCall
  | [] => []
  | (name, handle) :: rest =>
    [.tp_handle_ensure name handle, .tp_handle_client_hold client_name handle true,
     .tp_handle_unref handle, .g_array_append_val handle]
      ++ request_handles_success_calls client_name rest

/-- The handle an `ensure` call returned, for a call that is one. -/
def RepoCall.ensured : RepoCall → Option TpHandle
  | .tp_handle_ensure _ handle => some handle
  | _ => none

/-- A release of a handle from a client. -/
def RepoCall.is_release : RepoCall → Bool
  | .tp_handle_client_release _ _ => true
  | _ => false

/-- A raw read of the result array at or beyond its length. -/
def RepoCall.is_read_past_end : RepoCall → Bool
  | .g_array_index index len => decide (len ≤ index)
  | _ => false

/-- The handles released from a client, in order. -/
def released_handles (calls : List RepoCall) : List TpHandle :=
  calls.filterMap (fun c =>
    match c with
    | .tp_handle_client_release _ handle => some handle
    | _ => none)


/-! # Lemmas -/

/-! ## The handle repository -/

theorem handle_lookup_get (s : String) :
    ∀ (es : List HandleEntry) (base : Nat) (h : Nat), handle_lookup s es base = some h →
      base < h ∧ ∃ e, es[h - base - 1]? = some e ∧ e.name = s ∧ 0 < e.refcount := by
  intro es
  induction es with
  | nil => intro base h hl; simp [handle_lookup] at hl
  | cons e es ih =>
    intro base h hl
    unfold handle_lookup at hl
    split at hl
    · rename_i hc
      injection hl with hl
      subst hl
      refine ⟨by omega, e, ?_, hc.1, hc.2⟩
      simp
    · obtain ⟨hb, e1, hg, hn, hr⟩ := ih (base + 1) h hl
      refine ⟨by omega, e1, ?_, hn, hr⟩
      have : h - base - 1 = (h - (base + 1) - 1) + 1 := by omega
      rw [this]
      simpa using hg

theorem handle_ref_get :
    ∀ (es : List HandleEntry) (i : Nat) (e : HandleEntry), es[i]? = some e →
      (handle_ref es i)[i]? = some { e with refcount := e.refcount + 1 } := by
  intro es
  induction es with
  | nil => intro i e h; simp at h
  | cons x xs ih =>
    intro i e h
    cases i with
    | zero =>
      simp at h
      subst h
      simp [handle_ref]
    | succ i =>
      simp at h
      simpa [handle_ref] using ih i e h

theorem tp_handle_ensure_ok (normalize : String → Except GError String) (repo : TpHandleRepo)
    (id s : String) (hn : normalize id = .ok s) :
    (tp_handle_ensure normalize repo id).2.1 ≠ 0 ∧
    (tp_handle_ensure normalize repo id).2.2 = none ∧
    tp_handle_inspect (tp_handle_ensure normalize repo id).1
      (tp_handle_ensure normalize repo id).2.1 = some s := by
  unfold tp_handle_ensure
  rw [hn]
  simp only
  cases hl : handle_lookup s repo.entries 0 with
  | none =>
    simp [tp_handle_inspect]
  | some h =>
    obtain ⟨hb, e, hg, hname, hr⟩ := handle_lookup_get s repo.entries 0 h hl
    have hg1 : repo.entries[h - 1]? = some e := by simpa using hg
    have := handle_ref_get repo.entries (h - 1) e hg1
    have h0 : h ≠ 0 := Nat.pos_iff_ne_zero.mp hb
    simp [tp_handle_inspect, h0, this, hname, hr]

theorem tp_handle_ensure_error (normalize : String → Except GError String) (repo : TpHandleRepo)
    (id : String) (e : GError) (hn : normalize id = .error e) :
    tp_handle_ensure normalize repo id = (repo, 0, some e) := by
  unfold tp_handle_ensure
  rw [hn]

/-! ## The stages of `start_connecting` -/

theorem stun_no_engine_created (priv : SIPConnectionPrivate) :
    (start_connecting_stun priv).countP Event.is_engine_created = 0 := by
  unfold start_connecting_stun
  split
  · simp [Event.is_engine_created]
  · split <;> simp [Event.is_engine_created]

theorem stun_no_engine_shutdown (priv : SIPConnectionPrivate) :
    (start_connecting_stun priv).countP Event.is_engine_shutdown = 0 := by
  unfold start_connecting_stun
  split
  · simp [Event.is_engine_shutdown]
  · split <;> simp [Event.is_engine_shutdown]

theorem stun_no_register_created (priv : SIPConnectionPrivate) :
    (start_connecting_stun priv).countP Event.is_register_created = 0 := by
  unfold start_connecting_stun
  split
  · simp [Event.is_register_created]
  · split <;> simp [Event.is_register_created]

theorem stun_no_handle_unref (priv : SIPConnectionPrivate) :
    (start_connecting_stun priv).countP Event.is_handle_unref = 0 := by
  unfold start_connecting_stun
  split
  · simp [Event.is_handle_unref]
  · split <;> simp [Event.is_handle_unref]

theorem stun_no_register_request (priv : SIPConnectionPrivate) :
    (start_connecting_stun priv).countP Event.is_register_request = 0 := by
  unfold start_connecting_stun
  split
  · simp [Event.is_register_request]
  · split <;> simp [Event.is_register_request]

/-- What the last stage returns when the registration handle cannot be created. -/
theorem register_stage_fail (env : Env) (base : TpBaseConnection) (priv : SIPConnectionPrivate)
    (nua : nua_t) (sip_address : Option String) (error : Option GError)
    (h : env.sip_conn_create_register_handle priv base.self_handle = none) :
    start_connecting_register env base priv nua sip_address error =
      { self := { parent := base, priv := { priv with register_op := none } }
        events :=
          [.sip_conn_update_proxy_and_transport priv, .sip_conn_update_nua_outbound priv,
           .sip_conn_update_nua_keepalive_interval priv,
           .sip_conn_update_nua_contact_features priv]
          ++ start_connecting_stun priv
          ++ [.nua_get_params nua, .sip_conn_create_register_handle priv base.self_handle none]
        result := some (false,
          some ⟨.TP_ERROR_NOT_AVAILABLE,
            "Unable to create registration handle for address " ++ sip_address.getD ""⟩) } := by
  simp only [start_connecting_register, h]

/-- What the last stage returns when the registration handle is created. -/
theorem register_stage_ok (env : Env) (base : TpBaseConnection) (priv : SIPConnectionPrivate)
    (nua : nua_t) (sip_address : Option String) (error : Option GError) (r : nua_handle_t)
    (h : env.sip_conn_create_register_handle priv base.self_handle = some r) :
    start_connecting_register env base priv nua sip_address error =
      { self := { parent := base, priv := { priv with register_op := some r } }
        events :=
          [.sip_conn_update_proxy_and_transport priv, .sip_conn_update_nua_outbound priv,
           .sip_conn_update_nua_keepalive_interval priv,
           .sip_conn_update_nua_contact_features priv]
          ++ start_connecting_stun priv
          ++ [.nua_get_params nua, .sip_conn_create_register_handle priv base.self_handle (some r)]
          ++ [.nua_register r]
        result := some (true, error) } := by
  simp only [start_connecting_register, h]

theorem nua_create_event_created (env : Env) (priv : SIPConnectionPrivate)
    (sofia_root : su_root_t) (sip_address : Option String) (account_url : url_t) :
    (start_connecting_nua_create_event env priv sofia_root sip_address account_url).is_engine_created
      = (start_connecting_nua_create env priv sofia_root sip_address account_url).isSome := by
  unfold start_connecting_nua_create_event
  cases h : start_connecting_nua_create env priv sofia_root sip_address account_url <;>
    simp [Event.is_engine_created]

/-- What the stack stage returns when `nua_create` fails. -/
theorem stack_stage_fail (env : Env) (base : TpBaseConnection) (priv : SIPConnectionPrivate)
    (sofia_root : su_root_t) (sip_address : Option String) (account_url : url_t)
    (error : Option GError)
    (h : start_connecting_nua_create env priv sofia_root sip_address account_url = none) :
    start_connecting_stack env base priv sofia_root sip_address account_url error =
      { self := { parent := base, priv := { priv with sofia_nua := none } }
        events := [start_connecting_nua_create_event env priv sofia_root sip_address account_url]
        result :=
          some (false, some ⟨.TP_ERROR_NOT_AVAILABLE, "Unable to create SIP stack"⟩) } := by
  simp only [start_connecting_stack, h]

/-- What the stack stage returns when `nua_create` yields an engine. -/
theorem stack_stage_ok (env : Env) (base : TpBaseConnection) (priv : SIPConnectionPrivate)
    (sofia_root : su_root_t) (sip_address : Option String) (account_url : url_t)
    (error : Option GError) (nua : nua_t)
    (h : start_connecting_nua_create env priv sofia_root sip_address account_url = some nua) :
    start_connecting_stack env base priv sofia_root sip_address account_url error =
      { start_connecting_register env base { priv with sofia_nua := some nua } nua
          sip_address error with
        events :=
          start_connecting_nua_create_event env priv sofia_root sip_address account_url ::
            (start_connecting_register env base { priv with sofia_nua := some nua } nua
              sip_address error).events } := by
  simp only [start_connecting_stack, h]

/-! ## The paths of `start_connecting` -/

/-- A status other than NEW fails the entry assertion. -/
theorem start_connecting_not_new (env : Env) (s : SIPConnection)
    (h : s.parent.status ≠ .TP_INTERNAL_CONNECTION_STATUS_NEW) :
    sip_connection_start_connecting env s = Call.aborted s := by
  simp [sip_connection_start_connecting, h]

/-- A missing adapter fails the second assertion. -/
theorem start_connecting_no_sofia (env : Env) (s : SIPConnection)
    (h : s.priv.sofia = none) :
    sip_connection_start_connecting env s = Call.aborted s := by
  by_cases h0 : s.parent.status = .TP_INTERNAL_CONNECTION_STATUS_NEW
  · simp [sip_connection_start_connecting, h0, h]
  · exact start_connecting_not_new env s h0

/-- A missing event root fails the third assertion. -/
theorem start_connecting_no_root (env : Env) (s : SIPConnection) (sofia : SIPConnectionSofia)
    (h1 : s.priv.sofia = some sofia) (h2 : sofia.sofia_root = none) :
    sip_connection_start_connecting env s = Call.aborted s := by
  by_cases h0 : s.parent.status = .TP_INTERNAL_CONNECTION_STATUS_NEW
  · simp [sip_connection_start_connecting, h0, h1, h2]
  · exact start_connecting_not_new env s h0

/-- With no address configured the guard returns `FALSE` and leaves everything as it
was, the caller's error included. -/
theorem start_connecting_no_address (env : Env) (s : SIPConnection) (sofia : SIPConnectionSofia)
    (root : su_root_t)
    (h0 : s.parent.status = .TP_INTERNAL_CONNECTION_STATUS_NEW)
    (h1 : s.priv.sofia = some sofia) (h2 : sofia.sofia_root = some root)
    (h3 : s.priv.address = none) :
    sip_connection_start_connecting env s = { self := s, events := [], result := some (false, none) } := by
  simp [sip_connection_start_connecting, h0, h1, h2, h3]

/-- The address does not normalise: no handle, the normaliser's error is returned. -/
theorem start_connecting_ensure_fail (env : Env) (s : SIPConnection)
    (sofia : SIPConnectionSofia) (root : su_root_t) (a : String) (e : GError)
    (h0 : s.parent.status = .TP_INTERNAL_CONNECTION_STATUS_NEW)
    (h1 : s.priv.sofia = some sofia) (h2 : sofia.sofia_root = some root)
    (h3 : s.priv.address = some a)
    (h4 : env.sip_conn_normalize_uri s.priv a = .error e) :
    sip_connection_start_connecting env s =
      { self := { parent := { s.parent with self_handle := 0 }, priv := s.priv }
        events := []
        result := some (false, some e) } := by
  have he := tp_handle_ensure_error (env.sip_conn_normalize_uri s.priv) s.parent.contact_repo a e h4
  simp [sip_connection_start_connecting, h0, h1, h2, h3, he]

/-- The account URL cannot be built from the normalised address. -/
theorem start_connecting_url_fail (env : Env) (s : SIPConnection)
    (sofia : SIPConnectionSofia) (root : su_root_t) (a n : String)
    (h0 : s.parent.status = .TP_INTERNAL_CONNECTION_STATUS_NEW)
    (h1 : s.priv.sofia = some sofia) (h2 : sofia.sofia_root = some root)
    (h3 : s.priv.address = some a)
    (h4 : env.sip_conn_normalize_uri s.priv a = .ok n)
    (h5 : env.url_make n = none) :
    sip_connection_start_connecting env s =
      { self := { parent := base_after_ensure env s a, priv := { s.priv with account_url := none } }
        events := []
        result := some (false,
          some ⟨.TP_ERROR_NOT_AVAILABLE, "Failed to create the account URI"⟩) } := by
  obtain ⟨he1, he2, he3⟩ :=
    tp_handle_ensure_ok (env.sip_conn_normalize_uri s.priv) s.parent.contact_repo a n h4
  simp [sip_connection_start_connecting, h0, h1, h2, h3, he1, he3, h5, base_after_ensure]

/-- Identity resolved and account URL built: the rest is the stack stage. -/
theorem start_connecting_to_stack (env : Env) (s : SIPConnection)
    (sofia : SIPConnectionSofia) (root : su_root_t) (a n : String) (u : url_t)
    (h0 : s.parent.status = .TP_INTERNAL_CONNECTION_STATUS_NEW)
    (h1 : s.priv.sofia = some sofia) (h2 : sofia.sofia_root = some root)
    (h3 : s.priv.address = some a)
    (h4 : env.sip_conn_normalize_uri s.priv a = .ok n)
    (h5 : env.url_make n = some u) :
    sip_connection_start_connecting env s =
      start_connecting_stack env (base_after_ensure env s a)
        { s.priv with account_url := some u } root (some n) u none := by
  obtain ⟨he1, he2, he3⟩ :=
    tp_handle_ensure_ok (env.sip_conn_normalize_uri s.priv) s.parent.contact_repo a n h4
  simp [sip_connection_start_connecting, h0, h1, h2, h3, he1, he2, he3, h5, base_after_ensure]

/-- Case analysis on a call of `start_connecting`: a property holds of the call as soon
as it holds of each of its seven ways to end. -/
theorem start_connecting_cases (env : Env) (s : SIPConnection)
    (P : Call (Bool × Option GError) → Prop)
    (h_abort : (s.parent.status ≠ .TP_INTERNAL_CONNECTION_STATUS_NEW ∨ s.priv.sofia = none ∨
        ∃ sofia, s.priv.sofia = some sofia ∧ sofia.sofia_root = none) → P (Call.aborted s))
    (h_no_address : ∀ sofia root,
      s.parent.status = .TP_INTERNAL_CONNECTION_STATUS_NEW → s.priv.sofia = some sofia →
      sofia.sofia_root = some root → s.priv.address = none →
      P { self := s, events := [], result := some (false, none) })
    (h_ensure : ∀ sofia root a e,
      s.parent.status = .TP_INTERNAL_CONNECTION_STATUS_NEW → s.priv.sofia = some sofia →
      sofia.sofia_root = some root → s.priv.address = some a →
      env.sip_conn_normalize_uri s.priv a = .error e →
      P { self := { parent := { s.parent with self_handle := 0 }, priv := s.priv }
          events := [], result := some (false, some e) })
    (h_url : ∀ sofia root a n,
      s.parent.status = .TP_INTERNAL_CONNECTION_STATUS_NEW → s.priv.sofia = some sofia →
      sofia.sofia_root = some root → s.priv.address = some a →
      env.sip_conn_normalize_uri s.priv a = .ok n → env.url_make n = none →
      P { self := { parent := base_after_ensure env s a
                    priv := { s.priv with account_url := none } }
          events := []
          result := some (false,
            some ⟨.TP_ERROR_NOT_AVAILABLE, "Failed to create the account URI"⟩) })
    (h_stack : ∀ sofia root a n u,
      s.parent.status = .TP_INTERNAL_CONNECTION_STATUS_NEW → s.priv.sofia = some sofia →
      sofia.sofia_root = some root → s.priv.address = some a →
      env.sip_conn_normalize_uri s.priv a = .ok n → env.url_make n = some u →
      start_connecting_nua_create env { s.priv with account_url := some u } root (some n) u
        = none →
      P { self := { parent := base_after_ensure env s a
                    priv := { s.priv with account_url := some u, sofia_nua := none } }
          events := [start_connecting_nua_create_event env { s.priv with account_url := some u }
            root (some n) u]
          result := some (false,
            some ⟨.TP_ERROR_NOT_AVAILABLE, "Unable to create SIP stack"⟩) })
    (h_register : ∀ sofia root a n u nua,
      s.parent.status = .TP_INTERNAL_CONNECTION_STATUS_NEW → s.priv.sofia = some sofia →
      sofia.sofia_root = some root → s.priv.address = some a →
      env.sip_conn_normalize_uri s.priv a = .ok n → env.url_make n = some u →
      start_connecting_nua_create env { s.priv with account_url := some u } root (some n) u
        = some nua →
      env.sip_conn_create_register_handle
        { s.priv with account_url := some u, sofia_nua := some nua }
        (base_after_ensure env s a).self_handle = none →
      P (start_connecting_stack env (base_after_ensure env s a)
          { s.priv with account_url := some u } root (some n) u none))
    (h_ok : ∀ sofia root a n u nua r,
      s.parent.status = .TP_INTERNAL_CONNECTION_STATUS_NEW → s.priv.sofia = some sofia →
      sofia.sofia_root = some root → s.priv.address = some a →
      env.sip_conn_normalize_uri s.priv a = .ok n → env.url_make n = some u →
      start_connecting_nua_create env { s.priv with account_url := some u } root (some n) u
        = some nua →
      env.sip_conn_create_register_handle
        { s.priv with account_url := some u, sofia_nua := some nua }
        (base_after_ensure env s a).self_handle = some r →
      P (start_connecting_stack env (base_after_ensure env s a)
          { s.priv with account_url := some u } root (some n) u none)) :
    P (sip_connection_start_connecting env s) := by
  by_cases h0 : s.parent.status = .TP_INTERNAL_CONNECTION_STATUS_NEW
  swap
  · rw [start_connecting_not_new env s h0]; exact h_abort (Or.inl h0)
  cases h1 : s.priv.sofia with
  | none => rw [start_connecting_no_sofia env s h1]; exact h_abort (Or.inr (Or.inl h1))
  | some sofia =>
  cases h2 : sofia.sofia_root with
  | none =>
    rw [start_connecting_no_root env s sofia h1 h2]
    exact h_abort (Or.inr (Or.inr ⟨sofia, h1, h2⟩))
  | some root =>
  cases h3 : s.priv.address with
  | none =>
    rw [start_connecting_no_address env s sofia root h0 h1 h2 h3]
    exact h_no_address sofia root h0 h1 h2 h3
  | some a =>
  cases h4 : env.sip_conn_normalize_uri s.priv a with
  | error e =>
    rw [start_connecting_ensure_fail env s sofia root a e h0 h1 h2 h3 h4]
    exact h_ensure sofia root a e h0 h1 h2 h3 h4
  | ok n =>
  cases h5 : env.url_make n with
  | none =>
    rw [start_connecting_url_fail env s sofia root a n h0 h1 h2 h3 h4 h5]
    exact h_url sofia root a n h0 h1 h2 h3 h4 h5
  | some u =>
  rw [start_connecting_to_stack env s sofia root a n u h0 h1 h2 h3 h4 h5]
  cases h6 : start_connecting_nua_create env { s.priv with account_url := some u } root
      (some n) u with
  | none =>
    rw [stack_stage_fail _ _ _ _ _ _ _ h6]
    exact h_stack sofia root a n u h0 h1 h2 h3 h4 h5 h6
  | some nua =>
  cases h7 : env.sip_conn_create_register_handle
      { s.priv with account_url := some u, sofia_nua := some nua }
      (base_after_ensure env s a).self_handle with
  | none => exact h_register sofia root a n u nua h0 h1 h2 h3 h4 h5 h6 h7
  | some r => exact h_ok sofia root a n u nua r h0 h1 h2 h3 h4 h5 h6 h7

/-- The stack stage, spelled out, when the engine is created but the registration
handle is not. -/
theorem stack_stage_register_fail (env : Env) (base : TpBaseConnection)
    (priv : SIPConnectionPrivate) (root : su_root_t) (sip_address : Option String)
    (u : url_t) (error : Option GError) (nua : nua_t)
    (h6 : start_connecting_nua_create env priv root sip_address u = some nua)
    (h7 : env.sip_conn_create_register_handle { priv with sofia_nua := some nua }
      base.self_handle = none) :
    start_connecting_stack env base priv root sip_address u error =
      { self := { parent := base
                  priv := { priv with sofia_nua := some nua, register_op := none } }
        events :=
          start_connecting_nua_create_event env priv root sip_address u ::
          ([.sip_conn_update_proxy_and_transport { priv with sofia_nua := some nua },
            .sip_conn_update_nua_outbound { priv with sofia_nua := some nua },
            .sip_conn_update_nua_keepalive_interval { priv with sofia_nua := some nua },
            .sip_conn_update_nua_contact_features { priv with sofia_nua := some nua }]
           ++ start_connecting_stun { priv with sofia_nua := some nua }
           ++ [.nua_get_params nua,
               .sip_conn_create_register_handle { priv with sofia_nua := some nua }
                 base.self_handle none])
        result := some (false,
          some ⟨.TP_ERROR_NOT_AVAILABLE,
            "Unable to create registration handle for address " ++ sip_address.getD ""⟩) } := by
  rw [stack_stage_ok _ _ _ _ _ _ _ nua h6, register_stage_fail _ _ _ _ _ _ h7]

/-- The stack stage, spelled out, when both the engine and the registration handle
are created. -/
theorem stack_stage_register_ok (env : Env) (base : TpBaseConnection)
    (priv : SIPConnectionPrivate) (root : su_root_t) (sip_address : Option String)
    (u : url_t) (error : Option GError) (nua : nua_t) (r : nua_handle_t)
    (h6 : start_connecting_nua_create env priv root sip_address u = some nua)
    (h7 : env.sip_conn_create_register_handle { priv with sofia_nua := some nua }
      base.self_handle = some r) :
    start_connecting_stack env base priv root sip_address u error =
      { self := { parent := base
                  priv := { priv with sofia_nua := some nua, register_op := some r } }
        events :=
          start_connecting_nua_create_event env priv root sip_address u ::
          ([.sip_conn_update_proxy_and_transport { priv with sofia_nua := some nua },
            .sip_conn_update_nua_outbound { priv with sofia_nua := some nua },
            .sip_conn_update_nua_keepalive_interval { priv with sofia_nua := some nua },
            .sip_conn_update_nua_contact_features { priv with sofia_nua := some nua }]
           ++ start_connecting_stun { priv with sofia_nua := some nua }
           ++ [.nua_get_params nua,
               .sip_conn_create_register_handle { priv with sofia_nua := some nua }
                 base.self_handle (some r)]
           ++ [.nua_register r])
        result := some (true, error) } := by
  rw [stack_stage_ok _ _ _ _ _ _ _ nua h6, register_stage_ok _ _ _ _ _ _ r h7]

/-- The `nua_create` event is none of the other kinds of event. -/
theorem nua_create_event_flags (env : Env) (priv : SIPConnectionPrivate)
    (sofia_root : su_root_t) (sip_address : Option String) (account_url : url_t) :
    (start_connecting_nua_create_event env priv sofia_root sip_address account_url).is_engine_shutdown
      = false ∧
    (start_connecting_nua_create_event env priv sofia_root sip_address account_url).is_register_created
      = false ∧
    (start_connecting_nua_create_event env priv sofia_root sip_address account_url).is_handle_unref
      = false ∧
    (start_connecting_nua_create_event env priv sofia_root sip_address account_url).is_register_request
      = false ∧
    (start_connecting_nua_create_event env priv sofia_root sip_address account_url).is_register_create_call
      = false ∧
    (start_connecting_nua_create_event env priv sofia_root sip_address account_url).stun_action
      = none :=
  ⟨rfl, rfl, rfl, rfl, rfl, rfl⟩

/-- Bookkeeping of one call of `start_connecting` on a connection that holds neither
an engine nor a registration handle. -/
theorem start_connecting_counts (env : Env) (s : SIPConnection)
    (hn : s.priv.sofia_nua = none) (hr : s.priv.register_op = none) :
    (sip_connection_start_connecting env s).self.priv.sofia = s.priv.sofia ∧
    (sip_connection_start_connecting env s).events.countP Event.is_engine_created =
      (if (sip_connection_start_connecting env s).self.priv.sofia_nua.isSome then 1 else 0) ∧
    (sip_connection_start_connecting env s).events.countP Event.is_engine_shutdown = 0 ∧
    (sip_connection_start_connecting env s).events.countP Event.is_register_created =
      (if (sip_connection_start_connecting env s).self.priv.register_op.isSome then 1 else 0) ∧
    (sip_connection_start_connecting env s).events.countP Event.is_handle_unref = 0 ∧
    (∀ err, (sip_connection_start_connecting env s).result = some (false, err) →
      (sip_connection_start_connecting env s).self.priv.register_op = none) := by
  apply start_connecting_cases env s
    (fun c => c.self.priv.sofia = s.priv.sofia ∧
      c.events.countP Event.is_engine_created = (if c.self.priv.sofia_nua.isSome then 1 else 0) ∧
      c.events.countP Event.is_engine_shutdown = 0 ∧
      c.events.countP Event.is_register_created =
        (if c.self.priv.register_op.isSome then 1 else 0) ∧
      c.events.countP Event.is_handle_unref = 0 ∧
      (∀ err, c.result = some (false, err) → c.self.priv.register_op = none))
  · intro _
    simp [Call.aborted, hn, hr]
  · intro sofia root _ _ _ _
    simp [hn, hr]
  · intro sofia root a e _ _ _ _ _
    simp [hn, hr]
  · intro sofia root a n _ _ _ _ _ _
    simp [hn, hr]
  · intro sofia root a n u _ _ _ _ _ _ h6
    have hc := nua_create_event_created env { s.priv with account_url := some u } root (some n) u
    rw [h6] at hc
    simp only [List.countP_cons, List.countP_nil, hc, nua_create_event_flags]
    simp [hr]
  · intro sofia root a n u nua _ _ _ _ _ _ h6 h7
    have hc := nua_create_event_created env { s.priv with account_url := some u } root (some n) u
    rw [h6] at hc
    rw [stack_stage_register_fail _ _ _ _ _ _ _ nua h6 h7]
    simp only [List.countP_cons, List.countP_nil, List.countP_append, hc, nua_create_event_flags,
      stun_no_engine_created, stun_no_engine_shutdown, stun_no_register_created,
      stun_no_handle_unref]
    simp [Event.is_engine_created, Event.is_engine_shutdown, Event.is_register_created,
      Event.is_handle_unref]
  · intro sofia root a n u nua r _ _ _ _ _ _ h6 h7
    have hc := nua_create_event_created env { s.priv with account_url := some u } root (some n) u
    rw [h6] at hc
    rw [stack_stage_register_ok _ _ _ _ _ _ _ nua r h6 h7]
    simp only [List.countP_cons, List.countP_nil, List.countP_append, hc, nua_create_event_flags,
      stun_no_engine_created, stun_no_engine_shutdown, stun_no_register_created,
      stun_no_handle_unref]
    simp [Event.is_engine_created, Event.is_engine_shutdown, Event.is_register_created,
      Event.is_handle_unref]

/-- The property setter never touches the handles, the status or the presence of the
adapter, and its events neither create nor release anything. -/
theorem set_property_frame (env : Env) (s : SIPConnection) (property_id : PropertyId)
    (value : GValue) :
    (sip_connection_set_property env s property_id value).self.priv.sofia_nua = s.priv.sofia_nua ∧
    (sip_connection_set_property env s property_id value).self.priv.register_op
      = s.priv.register_op ∧
    (sip_connection_set_property env s property_id value).self.parent = s.parent ∧
    (sip_connection_set_property env s property_id value).self.priv.sofia.isSome
      = s.priv.sofia.isSome ∧
    (sip_connection_set_property env s property_id value).events.countP Event.is_engine_created = 0 ∧
    (sip_connection_set_property env s property_id value).events.countP Event.is_engine_shutdown = 0 ∧
    (sip_connection_set_property env s property_id value).events.countP Event.is_register_created = 0 ∧
    (sip_connection_set_property env s property_id value).events.countP Event.is_handle_unref = 0 := by
  cases property_id <;> simp only [sip_connection_set_property] <;>
    (try split) <;>
    simp_all [Event.is_engine_created, Event.is_engine_shutdown, Event.is_register_created,
      Event.is_handle_unref]

/-! ## `disconnected` and `shut_down` -/

/-- With a registration handle, `disconnected` unregisters, drops the reference and
clears the field; nothing else changes. -/
theorem disconnected_with_handle (s : SIPConnection) (r : nua_handle_t)
    (h : s.priv.register_op = some r) :
    sip_connection_disconnected s =
      { self := { s with priv := { s.priv with register_op := none } }
        events := [.nua_unregister r, .nua_handle_unref r]
        result := some () } := by
  simp only [sip_connection_disconnected, h]

/-- Without a registration handle, `disconnected` does nothing. -/
theorem disconnected_without_handle (s : SIPConnection) (h : s.priv.register_op = none) :
    sip_connection_disconnected s = { self := s, events := [], result := some () } := by
  simp only [sip_connection_disconnected, h]

/-- A registration handle still held fails the first assertion of `shut_down`. -/
theorem shut_down_with_handle (s : SIPConnection) (h : s.priv.register_op ≠ none) :
    sip_connection_shut_down s = Call.aborted s := by
  simp [sip_connection_shut_down, h]

/-- A missing adapter fails the second assertion of `shut_down`. -/
theorem shut_down_no_sofia (s : SIPConnection) (h : s.priv.sofia = none) :
    sip_connection_shut_down s = Call.aborted s := by
  by_cases hr : s.priv.register_op = none
  · simp [sip_connection_shut_down, hr, h]
  · exact shut_down_with_handle s hr

/-- With an engine, `shut_down` detaches the adapter, requests the engine's shutdown
and finishes. -/
theorem shut_down_with_engine (s : SIPConnection) (sofia : SIPConnectionSofia) (nua : nua_t)
    (hr : s.priv.register_op = none) (hs : s.priv.sofia = some sofia)
    (hn : s.priv.sofia_nua = some nua) :
    sip_connection_shut_down s =
      { self := { s with priv := { s.priv with sofia := none, sofia_nua := none } }
        events := [.sofia_conn_cleared, .nua_shutdown nua, .tp_base_connection_finish_shutdown]
        result := some () } := by
  simp [sip_connection_shut_down, hr, hs, hn]

/-- Without an engine, `shut_down` detaches the adapter, destroys it and finishes. -/
theorem shut_down_without_engine (s : SIPConnection) (sofia : SIPConnectionSofia)
    (hr : s.priv.register_op = none) (hs : s.priv.sofia = some sofia)
    (hn : s.priv.sofia_nua = none) :
    sip_connection_shut_down s =
      { self := { s with priv := { s.priv with sofia := none, sofia_nua := none } }
        events := [.sofia_conn_cleared,
          .sip_connection_sofia_destroy { sofia with conn := false },
          .tp_base_connection_finish_shutdown]
        result := some () } := by
  simp [sip_connection_shut_down, hr, hs, hn]

/-! ## The bookkeeping invariant -/

theorem lifecycle_invariant_init (repo : TpHandleRepo) :
    lifecycle_invariant (World.start (sip_connection_init repo)) := by
  simp [lifecycle_invariant, World.start, sip_connection_init]

theorem lifecycle_invariant_step (env : Env) (w : World) (op : Op)
    (hw : lifecycle_invariant w) : lifecycle_invariant (step env w op) := by
  unfold step
  by_cases hab : w.aborted = true
  · simpa [hab] using hw
  simp only [hab, Bool.false_eq_true, if_false]
  obtain ⟨he, hg, hnew⟩ := hw
  cases op with
  | set_property property_id value =>
    obtain ⟨f1, f2, f3, _, f5, f6, f7, f8⟩ :=
      set_property_frame env w.self property_id value
    simp only [lifecycle_invariant, List.countP_append, f1, f2, f3, f5, f6, f7, f8]
    exact ⟨by omega, by omega, hnew⟩
  | start_connecting =>
    simp only
    cases hres : (sip_connection_start_connecting env w.self).result with
    | none => exact ⟨he, hg, hnew⟩
    | some r =>
      simp only
      by_cases hst : w.self.parent.status = .TP_INTERNAL_CONNECTION_STATUS_NEW
      · obtain ⟨hn, hr⟩ := hnew hst
        obtain ⟨_, c2, c3, c4, c5, _⟩ := start_connecting_counts env w.self hn hr
        rw [hn] at he
        rw [hr] at hg
        simp only [lifecycle_invariant, List.countP_append, c2, c3, c4, c5]
        refine ⟨by simp at he; omega, by simp at hg; omega, ?_⟩
        intro hs
        cases hb : r.1 <;> simp [status_after_start_connecting, hb] at hs
      · rw [start_connecting_not_new env w.self hst] at hres
        simp [Call.aborted] at hres
  | disconnected =>
    simp only
    cases hr : w.self.priv.register_op with
    | none =>
      rw [disconnected_without_handle _ hr]
      simp only [lifecycle_invariant, List.append_nil]
      exact ⟨he, hg, hnew⟩
    | some r =>
      rw [disconnected_with_handle _ r hr]
      rw [hr] at hg
      simp only [lifecycle_invariant, List.countP_append]
      refine ⟨by simpa [Event.is_engine_created, Event.is_engine_shutdown] using he, ?_, ?_⟩
      · simp [Event.is_register_created, Event.is_handle_unref] at hg ⊢
        omega
      · intro hs
        have := hnew hs
        rw [hr] at this
        simp at this
  | shut_down =>
    simp only
    by_cases hr : w.self.priv.register_op = none
    swap
    · rw [shut_down_with_handle _ hr]
      exact ⟨he, hg, hnew⟩
    cases hs : w.self.priv.sofia with
    | none =>
      rw [shut_down_no_sofia _ hs]
      exact ⟨he, hg, hnew⟩
    | some sofia =>
      cases hn : w.self.priv.sofia_nua with
      | none =>
        rw [shut_down_without_engine _ sofia hr hs hn]
        rw [hn] at he
        rw [hr] at hg
        simp only [lifecycle_invariant, List.countP_append]
        simp [Event.is_engine_created, Event.is_engine_shutdown, Event.is_register_created,
          Event.is_handle_unref, hr] at he hg ⊢
        exact ⟨he, hg⟩
      | some nua =>
        rw [shut_down_with_engine _ sofia nua hr hs hn]
        rw [hn] at he
        rw [hr] at hg
        simp only [lifecycle_invariant, List.countP_append]
        simp [Event.is_engine_created, Event.is_engine_shutdown, Event.is_register_created,
          Event.is_handle_unref, hr] at he hg ⊢
        exact ⟨by omega, hg⟩

theorem lifecycle_invariant_run (env : Env) (ops : List Op) :
    ∀ w : World, lifecycle_invariant w → lifecycle_invariant (run env w ops) := by
  induction ops with
  | nil => intro w hw; exact hw
  | cons op ops ih =>
    intro w hw
    exact ih (step env w op) (lifecycle_invariant_step env w op hw)


theorem stun_filter_register_request (priv : SIPConnectionPrivate) :
    (start_connecting_stun priv).filter Event.is_register_request = [] := by
  unfold start_connecting_stun
  split
  · simp [Event.is_register_request]
  · split <;> simp [Event.is_register_request]

theorem stun_filter_register_create_call (priv : SIPConnectionPrivate) :
    (start_connecting_stun priv).filter Event.is_register_create_call = [] := by
  unfold start_connecting_stun
  split
  · simp [Event.is_register_create_call]
  · split <;> simp [Event.is_register_create_call]


/-- A call of `start_connecting` that returns at all found the adapter in place. -/
theorem start_connecting_returns_sofia (env : Env) (s : SIPConnection)
    (h : (sip_connection_start_connecting env s).result ≠ none) :
    ∃ sofia, s.priv.sofia = some sofia := by
  cases hs : s.priv.sofia with
  | none =>
    rw [start_connecting_no_sofia env s hs] at h
    simp [Call.aborted] at h
  | some sofia => exact ⟨sofia, rfl⟩


/-- The STUN step starts exactly the resolver actions of the spec's three modes. -/
theorem stun_actions_stun_step (priv : SIPConnectionPrivate) :
    stun_actions (start_connecting_stun priv)
      = spec_stun_mode priv.stun_host priv.discover_stun := by
  unfold start_connecting_stun spec_stun_mode stun_actions
  cases priv.stun_host with
  | some host => simp [Event.stun_action]
  | none => cases priv.discover_stun <;> simp [Event.stun_action]

theorem spec_stun_mode_length (stun_host : Option String) (discover_stun : Bool) :
    (spec_stun_mode stun_host discover_stun).length ≤ 1 := by
  unfold spec_stun_mode
  cases stun_host <;> cases discover_stun <;> simp

/-- The resolver actions of a run of `start_connecting`: those of the STUN step when
the engine was created, none otherwise. -/
theorem start_connecting_stun_actions (env : Env) (s : SIPConnection) :
    (stun_actions (sip_connection_start_connecting env s).events
        = spec_stun_mode s.priv.stun_host s.priv.discover_stun ∧
      (sip_connection_start_connecting env s).events.countP Event.is_engine_created = 1) ∨
    (stun_actions (sip_connection_start_connecting env s).events = [] ∧
      ∀ err, (sip_connection_start_connecting env s).result ≠ some (true, err)) := by
  apply start_connecting_cases env s (fun c =>
    (stun_actions c.events = spec_stun_mode s.priv.stun_host s.priv.discover_stun ∧
      c.events.countP Event.is_engine_created = 1) ∨
    (stun_actions c.events = [] ∧ ∀ err, c.result ≠ some (true, err)))
  · intro _
    right
    simp [Call.aborted, stun_actions]
  · intro _ _ _ _ _ _
    right
    simp [stun_actions]
  · intro _ _ _ _ _ _ _ _ _
    right
    simp [stun_actions]
  · intro _ _ _ _ _ _ _ _ _ _
    right
    simp [stun_actions]
  · intro _ _ _ _ _ _ _ _ _ _ _ _
    right
    simp only [stun_actions, List.filterMap_cons, nua_create_event_flags]
    simp
  · intro _ root _ n u nua _ _ _ _ _ _ h6 h7
    left
    have hc := nua_create_event_created env { s.priv with account_url := some u } root (some n) u
    rw [h6] at hc
    rw [stack_stage_register_fail _ _ _ _ _ _ _ nua h6 h7]
    have hst := stun_actions_stun_step { s.priv with account_url := some u, sofia_nua := some nua }
    unfold stun_actions at hst ⊢
    constructor
    · simp only [List.filterMap_cons, List.filterMap_append, nua_create_event_flags, hst]
      simp [Event.stun_action]
    · simp only [List.countP_cons, List.countP_nil, List.countP_append, hc,
        stun_no_engine_created]
      simp [Event.is_engine_created]
  · intro _ root _ n u nua r _ _ _ _ _ _ h6 h7
    left
    have hc := nua_create_event_created env { s.priv with account_url := some u } root (some n) u
    rw [h6] at hc
    rw [stack_stage_register_ok _ _ _ _ _ _ _ nua r h6 h7]
    have hst := stun_actions_stun_step { s.priv with account_url := some u, sofia_nua := some nua }
    unfold stun_actions at hst ⊢
    constructor
    · simp only [List.filterMap_cons, List.filterMap_append, nua_create_event_flags, hst]
      simp [Event.stun_action]
    · simp only [List.countP_cons, List.countP_nil, List.countP_append, hc,
        stun_no_engine_created]
      simp [Event.is_engine_created]


theorem stun_no_unregister_request (priv : SIPConnectionPrivate) :
    (start_connecting_stun priv).countP Event.is_unregister_request = 0 := by
  unfold start_connecting_stun
  split
  · simp [Event.is_unregister_request]
  · split <;> simp [Event.is_unregister_request]

theorem nua_create_event_unregister (env : Env) (priv : SIPConnectionPrivate)
    (sofia_root : su_root_t) (sip_address : Option String) (account_url : url_t) :
    (start_connecting_nua_create_event env priv sofia_root sip_address
      account_url).is_unregister_request = false :=
  rfl

theorem set_property_no_unregister (env : Env) (s : SIPConnection) (property_id : PropertyId)
    (value : GValue) :
    (sip_connection_set_property env s property_id value).events.countP
      Event.is_unregister_request = 0 := by
  cases property_id <;> simp only [sip_connection_set_property] <;>
    (try split) <;> simp_all [Event.is_unregister_request]


/-! ## Runs after the connect attempt -/

theorem run_append (env : Env) (w : World) (pre post : List Op) :
    run env w (pre ++ post) = run env (run env w pre) post := by
  simp [run, List.foldl_append]

theorem run_cons (env : Env) (w : World) (op : Op) (ops : List Op) :
    run env w (op :: ops) = run env (step env w op) ops := rfl

/-- A successful `start_connecting` leaves a registration handle, leaves the status to
the base class, and has dropped no reference. -/
theorem start_connecting_true (env : Env) (s : SIPConnection) (err : Option GError)
    (hs : (sip_connection_start_connecting env s).result = some (true, err)) :
    (∃ r, (sip_connection_start_connecting env s).self.priv.register_op = some r) ∧
    (sip_connection_start_connecting env s).events.countP Event.is_handle_unref = 0 ∧
    (sip_connection_start_connecting env s).events.countP Event.is_unregister_request = 0 := by
  revert hs
  apply start_connecting_cases env s (fun c => c.result = some (true, err) →
    (∃ r, c.self.priv.register_op = some r) ∧ c.events.countP Event.is_handle_unref = 0 ∧
    c.events.countP Event.is_unregister_request = 0)
  · intro _ h; simp [Call.aborted] at h
  · intro _ _ _ _ _ _ h; simp at h
  · intro _ _ _ _ _ _ _ _ _ h; simp at h
  · intro _ _ _ _ _ _ _ _ _ _ h; simp at h
  · intro _ _ _ _ _ _ _ _ _ _ _ _ h; simp at h
  · intro _ _ _ _ _ nua _ _ _ _ _ _ h6 h7
    rw [stack_stage_register_fail _ _ _ _ _ _ _ nua h6 h7]
    intro h; simp at h
  · intro _ _ _ _ _ nua r _ _ _ _ _ _ h6 h7
    rw [stack_stage_register_ok _ _ _ _ _ _ _ nua r h6 h7]
    intro _
    refine ⟨⟨r, rfl⟩, ?_, ?_⟩
    · simp only [List.countP_cons, List.countP_nil, List.countP_append, nua_create_event_flags,
        stun_no_handle_unref]
      simp [Event.is_handle_unref]
    · simp only [List.countP_cons, List.countP_nil, List.countP_append,
        nua_create_event_unregister, stun_no_unregister_request]
      simp [Event.is_unregister_request]

/-- Once the status has left NEW and no registration handle is held, no call drops a
reference or issues an unregister request any more. -/
theorem step_after_release (env : Env) (w : World) (op : Op)
    (hst : w.self.parent.status ≠ .TP_INTERNAL_CONNECTION_STATUS_NEW)
    (hr : w.self.priv.register_op = none) :
    (step env w op).self.parent.status ≠ .TP_INTERNAL_CONNECTION_STATUS_NEW ∧
    (step env w op).self.priv.register_op = none ∧
    (step env w op).trace.countP Event.is_handle_unref = w.trace.countP Event.is_handle_unref ∧
    (step env w op).trace.countP Event.is_unregister_request
      = w.trace.countP Event.is_unregister_request := by
  unfold step
  by_cases hab : w.aborted = true
  · simp [hab, hst, hr]
  simp only [hab, Bool.false_eq_true, if_false]
  cases op with
  | set_property property_id value =>
    obtain ⟨_, f2, f3, _, _, _, _, f8⟩ := set_property_frame env w.self property_id value
    have f9 := set_property_no_unregister env w.self property_id value
    simp only [List.countP_append, f2, f3, f8, f9]
    exact ⟨hst, hr, rfl, rfl⟩
  | start_connecting =>
    simp only [start_connecting_not_new env w.self hst, Call.aborted]
    exact ⟨hst, hr, trivial, trivial⟩
  | disconnected =>
    simp only [disconnected_without_handle _ hr, List.append_nil]
    exact ⟨hst, hr, trivial, trivial⟩
  | shut_down =>
    simp only
    cases hs : w.self.priv.sofia with
    | none =>
      rw [shut_down_no_sofia _ hs]
      exact ⟨hst, hr, rfl, rfl⟩
    | some sofia =>
      cases hn : w.self.priv.sofia_nua with
      | none =>
        rw [shut_down_without_engine _ sofia hr hs hn]
        simp [Event.is_handle_unref, Event.is_unregister_request, hst, hr]
      | some nua =>
        rw [shut_down_with_engine _ sofia nua hr hs hn]
        simp [Event.is_handle_unref, Event.is_unregister_request, hst, hr]

theorem run_after_release (env : Env) (ops : List Op) :
    ∀ w : World, w.self.parent.status ≠ .TP_INTERNAL_CONNECTION_STATUS_NEW →
      w.self.priv.register_op = none →
      (run env w ops).trace.countP Event.is_handle_unref = w.trace.countP Event.is_handle_unref ∧
      (run env w ops).trace.countP Event.is_unregister_request
        = w.trace.countP Event.is_unregister_request := by
  induction ops with
  | nil => intro w _ _; exact ⟨rfl, rfl⟩
  | cons op ops ih =>
    intro w hst hr
    obtain ⟨h1, h2, h3, h4⟩ := step_after_release env w op hst hr
    obtain ⟨i1, i2⟩ := ih (step env w op) h1 h2
    rw [run_cons, i1, i2, h3, h4]
    exact ⟨rfl, rfl⟩

/-- While the status has left NEW and a registration handle is held, any call other
than `disconnected` keeps the handle and drops no reference. -/
theorem step_before_release (env : Env) (w : World) (op : Op) (r : nua_handle_t)
    (hst : w.self.parent.status ≠ .TP_INTERNAL_CONNECTION_STATUS_NEW)
    (hr : w.self.priv.register_op = some r) (hop : op ≠ .disconnected) :
    (step env w op).self.parent.status ≠ .TP_INTERNAL_CONNECTION_STATUS_NEW ∧
    (step env w op).self.priv.register_op = some r ∧
    (step env w op).trace.countP Event.is_handle_unref = w.trace.countP Event.is_handle_unref ∧
    (step env w op).trace.countP Event.is_unregister_request
      = w.trace.countP Event.is_unregister_request := by
  unfold step
  by_cases hab : w.aborted = true
  · simp [hab, hst, hr]
  simp only [hab, Bool.false_eq_true, if_false]
  cases op with
  | set_property property_id value =>
    obtain ⟨_, f2, f3, _, _, _, _, f8⟩ := set_property_frame env w.self property_id value
    have f9 := set_property_no_unregister env w.self property_id value
    simp only [List.countP_append, f2, f3, f8, f9]
    exact ⟨hst, hr, rfl, rfl⟩
  | start_connecting =>
    simp only [start_connecting_not_new env w.self hst, Call.aborted]
    exact ⟨hst, hr, trivial, trivial⟩
  | disconnected => exact absurd rfl hop
  | shut_down =>
    have hne : w.self.priv.register_op ≠ none := by rw [hr]; simp
    simp only [shut_down_with_handle _ hne, Call.aborted]
    exact ⟨hst, hr, trivial, trivial⟩

theorem run_before_release (env : Env) (r : nua_handle_t) (ops : List Op) :
    ∀ w : World, w.self.parent.status ≠ .TP_INTERNAL_CONNECTION_STATUS_NEW →
      w.self.priv.register_op = some r → Op.disconnected ∉ ops →
      (run env w ops).self.parent.status ≠ .TP_INTERNAL_CONNECTION_STATUS_NEW ∧
      (run env w ops).self.priv.register_op = some r ∧
      (run env w ops).trace.countP Event.is_handle_unref = w.trace.countP Event.is_handle_unref ∧
      (run env w ops).trace.countP Event.is_unregister_request
        = w.trace.countP Event.is_unregister_request := by
  induction ops with
  | nil => intro w hst hr _; exact ⟨hst, hr, rfl, rfl⟩
  | cons op ops ih =>
    intro w hst hr hmem
    have hop : op ≠ .disconnected := fun h => hmem (by simp [h])
    have hrest : Op.disconnected ∉ ops := fun h => hmem (by simp [h])
    obtain ⟨h1, h2, h3, h4⟩ := step_before_release env w op r hst hr hop
    obtain ⟨i1, i2, i3, i4⟩ := ih (step env w op) h1 h2 hrest
    rw [run_cons]
    exact ⟨i1, i2, by rw [i3, h3], by rw [i4, h4]⟩


/-- The world right after a successful connect request on a fresh world. -/
theorem step_start_connecting_true (env : Env) (s : SIPConnection) (err : Option GError)
    (hs : (sip_connection_start_connecting env s).result = some (true, err)) :
    step env (World.start s) .start_connecting =
      { self := { (sip_connection_start_connecting env s).self with
                  parent := { (sip_connection_start_connecting env s).self.parent with
                              status := .TP_CONNECTION_STATUS_CONNECTING } }
        trace := (sip_connection_start_connecting env s).events
        aborted := false } := by
  simp [step, World.start, hs, status_after_start_connecting]


/-! ## Successful connects, spelled out -/

/-- A successful `start_connecting` took the last path: the address normalised, the
account URL was built, the engine and the registration handle were created, and the
call is the record below. -/
theorem start_connecting_true_inv (env : Env) (s : SIPConnection) (err : Option GError)
    (hs : (sip_connection_start_connecting env s).result = some (true, err)) :
    ∃ sofia root a n u nua r,
      s.parent.status = .TP_INTERNAL_CONNECTION_STATUS_NEW ∧
      s.priv.sofia = some sofia ∧ sofia.sofia_root = some root ∧
      s.priv.address = some a ∧
      env.sip_conn_normalize_uri s.priv a = .ok n ∧ env.url_make n = some u ∧
      start_connecting_nua_create env { s.priv with account_url := some u } root (some n) u
        = some nua ∧
      env.sip_conn_create_register_handle
        { s.priv with account_url := some u, sofia_nua := some nua }
        (base_after_ensure env s a).self_handle = some r ∧
      sip_connection_start_connecting env s =
        { self := { parent := base_after_ensure env s a
                    priv := { s.priv with account_url := some u, sofia_nua := some nua,
                                          register_op := some r } }
          events :=
            start_connecting_nua_create_event env { s.priv with account_url := some u } root
              (some n) u ::
            ([.sip_conn_update_proxy_and_transport
                { s.priv with account_url := some u, sofia_nua := some nua },
              .sip_conn_update_nua_outbound
                { s.priv with account_url := some u, sofia_nua := some nua },
              .sip_conn_update_nua_keepalive_interval
                { s.priv with account_url := some u, sofia_nua := some nua },
              .sip_conn_update_nua_contact_features
                { s.priv with account_url := some u, sofia_nua := some nua }]
             ++ start_connecting_stun
                { s.priv with account_url := some u, sofia_nua := some nua }
             ++ [.nua_get_params nua,
                 .sip_conn_create_register_handle
                   { s.priv with account_url := some u, sofia_nua := some nua }
                   (base_after_ensure env s a).self_handle (some r)]
             ++ [.nua_register r])
          result := some (true, none) } := by
  revert hs
  apply start_connecting_cases env s (fun c => c.result = some (true, err) →
    ∃ sofia root a n u nua r,
      s.parent.status = .TP_INTERNAL_CONNECTION_STATUS_NEW ∧
      s.priv.sofia = some sofia ∧ sofia.sofia_root = some root ∧
      s.priv.address = some a ∧
      env.sip_conn_normalize_uri s.priv a = .ok n ∧ env.url_make n = some u ∧
      start_connecting_nua_create env { s.priv with account_url := some u } root (some n) u
        = some nua ∧
      env.sip_conn_create_register_handle
        { s.priv with account_url := some u, sofia_nua := some nua }
        (base_after_ensure env s a).self_handle = some r ∧
      c =
        { self := { parent := base_after_ensure env s a
                    priv := { s.priv with account_url := some u, sofia_nua := some nua,
                                          register_op := some r } }
          events :=
            start_connecting_nua_create_event env { s.priv with account_url := some u } root
              (some n) u ::
            ([.sip_conn_update_proxy_and_transport
                { s.priv with account_url := some u, sofia_nua := some nua },
              .sip_conn_update_nua_outbound
                { s.priv with account_url := some u, sofia_nua := some nua },
              .sip_conn_update_nua_keepalive_interval
                { s.priv with account_url := some u, sofia_nua := some nua },
              .sip_conn_update_nua_contact_features
                { s.priv with account_url := some u, sofia_nua := some nua }]
             ++ start_connecting_stun
                { s.priv with account_url := some u, sofia_nua := some nua }
             ++ [.nua_get_params nua,
                 .sip_conn_create_register_handle
                   { s.priv with account_url := some u, sofia_nua := some nua }
                   (base_after_ensure env s a).self_handle (some r)]
             ++ [.nua_register r])
          result := some (true, none) })
  · intro _ h; simp [Call.aborted] at h
  · intro _ _ _ _ _ _ h; simp at h
  · intro _ _ _ _ _ _ _ _ _ h; simp at h
  · intro _ _ _ _ _ _ _ _ _ _ h; simp at h
  · intro _ _ _ _ _ _ _ _ _ _ _ _ h; simp at h
  · intro _ _ _ _ _ nua _ _ _ _ _ _ h6 h7
    rw [stack_stage_register_fail _ _ _ _ _ _ _ nua h6 h7]
    intro h; simp at h
  · intro sofia root a n u nua r h0 h1 h2 h3 h4 h5 h6 h7 _
    exact ⟨sofia, root, a, n, u, nua, r, h0, h1, h2, h3, h4, h5, h6, h7,
      stack_stage_register_ok _ _ _ _ _ _ _ nua r h6 h7⟩


/-! ## Orderings within one call -/

/-- Events that are neither gate nor action can be skipped at the front. -/
theorem none_before_append_skip (gate act : Event → Bool) (pre rest : List Event)
    (h : ∀ e ∈ pre, gate e = false ∧ act e = false) :
    none_before gate act (pre ++ rest) = none_before gate act rest := by
  induction pre with
  | nil => rfl
  | cons e es ih =>
    have he := h e (by simp)
    have hes : ∀ x ∈ es, gate x = false ∧ act x = false := fun x hx => h x (by simp [hx])
    simp [none_before, he.1, he.2, ih hes]

/-- The events of the STUN step are calls that start a resolver action, nothing
else. -/
theorem stun_step_flags (priv : SIPConnectionPrivate) :
    ∀ e ∈ start_connecting_stun priv,
      e.is_register_request = false ∧ e.is_resolver_completion = false ∧
      e.is_delivered = false ∧ e.is_proxy_and_transport_update = false := by
  intro e he
  unfold start_connecting_stun at he
  split at he
  · simp at he
    subst he
    exact ⟨rfl, rfl, rfl, rfl⟩
  · split at he
    · simp at he
      subst he
      exact ⟨rfl, rfl, rfl, rfl⟩
    · simp at he

/-- The `nua_create` event is a call, and neither a configuration update nor a resolver
completion. -/
theorem nua_create_event_call_flags (env : Env) (priv : SIPConnectionPrivate)
    (sofia_root : su_root_t) (sip_address : Option String) (account_url : url_t) :
    (start_connecting_nua_create_event env priv sofia_root sip_address
      account_url).is_resolver_completion = false ∧
    (start_connecting_nua_create_event env priv sofia_root sip_address
      account_url).is_delivered = false ∧
    (start_connecting_nua_create_event env priv sofia_root sip_address
      account_url).is_proxy_and_transport_update = false :=
  ⟨rfl, rfl, rfl⟩


/-- The order facts of the event list of a successful connect, over any creation event
and any STUN step that only starts resolver actions. -/
theorem connect_events_order (created : Event) (p : SIPConnectionPrivate)
    (stun : List Event) (nua : nua_t) (h : TpHandle) (r : nua_handle_t)
    (hc : created.is_register_request = false ∧ created.is_resolver_completion = false ∧
      created.is_delivered = false ∧ created.is_proxy_and_transport_update = false)
    (hstun : ∀ e ∈ stun, e.is_register_request = false ∧ e.is_resolver_completion = false ∧
      e.is_delivered = false ∧ e.is_proxy_and_transport_update = false) :
    created ::
      ([.sip_conn_update_proxy_and_transport p, .sip_conn_update_nua_outbound p,
        .sip_conn_update_nua_keepalive_interval p, .sip_conn_update_nua_contact_features p]
       ++ stun ++ [.nua_get_params nua, .sip_conn_create_register_handle p h (some r)]
       ++ [.nua_register r])
      = [created, .sip_conn_update_proxy_and_transport p, .sip_conn_update_nua_outbound p,
         .sip_conn_update_nua_keepalive_interval p, .sip_conn_update_nua_contact_features p]
        ++ stun
        ++ [.nua_get_params nua, .sip_conn_create_register_handle p h (some r),
            .nua_register r] ∧
    (created ::
      ([.sip_conn_update_proxy_and_transport p, .sip_conn_update_nua_outbound p,
        .sip_conn_update_nua_keepalive_interval p, .sip_conn_update_nua_contact_features p]
       ++ stun ++ [.nua_get_params nua, .sip_conn_create_register_handle p h (some r)]
       ++ [.nua_register r])).countP Event.is_register_request = 1 ∧
    (created ::
      ([.sip_conn_update_proxy_and_transport p, .sip_conn_update_nua_outbound p,
        .sip_conn_update_nua_keepalive_interval p, .sip_conn_update_nua_contact_features p]
       ++ stun ++ [.nua_get_params nua, .sip_conn_create_register_handle p h (some r)]
       ++ [.nua_register r])).all (fun e => !e.is_delivered) = true ∧
    none_before Event.is_proxy_and_transport_update Event.is_register_request
      (created ::
        ([.sip_conn_update_proxy_and_transport p, .sip_conn_update_nua_outbound p,
          .sip_conn_update_nua_keepalive_interval p, .sip_conn_update_nua_contact_features p]
         ++ stun ++ [.nua_get_params nua, .sip_conn_create_register_handle p h (some r)]
         ++ [.nua_register r])) = true ∧
    (∀ later,
      none_before Event.is_register_request Event.is_resolver_completion
        ((created ::
          ([.sip_conn_update_proxy_and_transport p, .sip_conn_update_nua_outbound p,
            .sip_conn_update_nua_keepalive_interval p, .sip_conn_update_nua_contact_features p]
           ++ stun ++ [.nua_get_params nua, .sip_conn_create_register_handle p h (some r)]
           ++ [.nua_register r])) ++ later) = true) := by
  have hcount : stun.countP Event.is_register_request = 0 := by
    rw [List.countP_eq_zero]
    intro e he
    simp [(hstun e he).1]
  have hall : stun.all (fun e => !e.is_delivered) = true := by
    rw [List.all_eq_true]
    intro e he
    simp [(hstun e he).2.2.1]
  refine ⟨by simp, ?_, ?_, ?_, ?_⟩
  · simp only [List.countP_cons, List.countP_nil, List.countP_append, hcount, hc.1]
    simp [Event.is_register_request]
  · simp only [List.all_cons, List.all_append, List.all_nil, hall, hc.2.2.1]
    simp [Event.is_delivered]
  · simp [none_before, hc.2.2.2, hc.1, Event.is_proxy_and_transport_update]
  · intro later
    have hpre : ∀ e ∈ created ::
        ([.sip_conn_update_proxy_and_transport p, .sip_conn_update_nua_outbound p,
          .sip_conn_update_nua_keepalive_interval p, .sip_conn_update_nua_contact_features p]
         ++ stun ++ [.nua_get_params nua, .sip_conn_create_register_handle p h (some r)]),
        e.is_register_request = false ∧ e.is_resolver_completion = false := by
      intro e he
      simp only [List.mem_cons, List.mem_append, List.not_mem_nil, or_false] at he
      rcases he with he | (((he | he | he | he) | he) | he | he)
      · subst he; exact ⟨hc.1, hc.2.1⟩
      · subst he; exact ⟨rfl, rfl⟩
      · subst he; exact ⟨rfl, rfl⟩
      · subst he; exact ⟨rfl, rfl⟩
      · subst he; exact ⟨rfl, rfl⟩
      · exact ⟨(hstun e he).1, (hstun e he).2.1⟩
      · subst he; exact ⟨rfl, rfl⟩
      · subst he; exact ⟨rfl, rfl⟩
    have hsplit := none_before_append_skip Event.is_register_request
      Event.is_resolver_completion _ (Event.nua_register r :: later) hpre
    have hshape : (created ::
          ([.sip_conn_update_proxy_and_transport p, .sip_conn_update_nua_outbound p,
            .sip_conn_update_nua_keepalive_interval p, .sip_conn_update_nua_contact_features p]
           ++ stun ++ [.nua_get_params nua, .sip_conn_create_register_handle p h (some r)]
           ++ [.nua_register r])) ++ later
        = (created ::
          ([.sip_conn_update_proxy_and_transport p, .sip_conn_update_nua_outbound p,
            .sip_conn_update_nua_keepalive_interval p, .sip_conn_update_nua_contact_features p]
           ++ stun ++ [.nua_get_params nua, .sip_conn_create_register_handle p h (some r)]))
          ++ (Event.nua_register r :: later) := by
      simp
    rw [hshape, hsplit]
    simp [none_before, Event.is_register_request]


/-! ## After the shutdown -/

/-- `start_connecting` never touches the adapter field. -/
theorem start_connecting_keeps_sofia (env : Env) (s : SIPConnection) :
    (sip_connection_start_connecting env s).self.priv.sofia = s.priv.sofia := by
  apply start_connecting_cases env s (fun c => c.self.priv.sofia = s.priv.sofia)
  · intro _; rfl
  · intro _ _ _ _ _ _; rfl
  · intro _ _ _ _ _ _ _ _ _; rfl
  · intro _ _ _ _ _ _ _ _ _ _; rfl
  · intro _ _ _ _ _ _ _ _ _ _ _ _; rfl
  · intro _ _ _ _ _ nua _ _ _ _ _ _ h6 h7
    rw [stack_stage_register_fail _ _ _ _ _ _ _ nua h6 h7]
  · intro _ _ _ _ _ nua r _ _ _ _ _ _ h6 h7
    rw [stack_stage_register_ok _ _ _ _ _ _ _ nua r h6 h7]

/-- Without an engine handle the property setter makes no call, and it never brings
the adapter back. -/
theorem set_property_without_engine (env : Env) (s : SIPConnection)
    (property_id : PropertyId) (value : GValue) (hn : s.priv.sofia_nua = none) :
    (sip_connection_set_property env s property_id value).events = [] ∧
    (s.priv.sofia = none →
      (sip_connection_set_property env s property_id value).self.priv.sofia = none) := by
  cases property_id <;> simp only [sip_connection_set_property] <;>
    (try split) <;> simp_all

/-- Once adapter, engine handle and registration handle are all gone, no call changes
that or emits anything. -/
theorem step_after_shut_down (env : Env) (w : World) (op : Op)
    (hs : w.self.priv.sofia = none) (hn : w.self.priv.sofia_nua = none)
    (hr : w.self.priv.register_op = none) :
    (step env w op).self.priv.sofia = none ∧
    (step env w op).self.priv.sofia_nua = none ∧
    (step env w op).self.priv.register_op = none ∧
    (step env w op).trace = w.trace := by
  unfold step
  by_cases hab : w.aborted = true
  · simp [hab, hs, hn, hr]
  simp only [hab, Bool.false_eq_true, if_false]
  cases op with
  | set_property property_id value =>
    obtain ⟨f1, f2, _, _, _, _, _, _⟩ := set_property_frame env w.self property_id value
    obtain ⟨g1, g2⟩ := set_property_without_engine env w.self property_id value hn
    simp only [f1, f2, g1, g2 hs, List.append_nil]
    exact ⟨trivial, hn, hr, trivial⟩
  | start_connecting =>
    simp only [start_connecting_no_sofia env w.self hs, Call.aborted]
    exact ⟨hs, hn, hr, trivial⟩
  | disconnected =>
    simp only [disconnected_without_handle _ hr, List.append_nil]
    exact ⟨hs, hn, hr, trivial⟩
  | shut_down =>
    simp only [shut_down_no_sofia _ hs, Call.aborted]
    exact ⟨hs, hn, hr, trivial⟩

theorem run_after_shut_down (env : Env) (ops : List Op) :
    ∀ w : World, w.self.priv.sofia = none → w.self.priv.sofia_nua = none →
      w.self.priv.register_op = none → (run env w ops).trace = w.trace := by
  induction ops with
  | nil => intro w _ _ _; rfl
  | cons op ops ih =>
    intro w hs hn hr
    obtain ⟨h1, h2, h3, h4⟩ := step_after_shut_down env w op hs hn hr
    rw [run_cons, ih (step env w op) h1 h2 h3, h4]


/-! ## RequestHandles -/

theorem ensured_handles_length {R : Type} (iface : TpHandleRepoIface R) (client_name : String) :
    ∀ (names : List String) (repo : R),
      (ensured_handles iface client_name names repo).length = names.length := by
  intro names
  induction names with
  | nil => intro _; rfl
  | cons name names ih =>
    intro repo
    simp [ensured_handles, ih]

/-- The main loop on names that can all be ensured and held: the reply carries the
handles collected so far followed by the ensured handles, and the calls are the four
per name. -/
theorem request_handles_loop_ok {R : Type} (env : RequestHandlesEnv R) (client_name : String) :
    ∀ (names : List String) (i : Nat) (repo : R) (handles : List TpHandle),
      names_ensured_and_held env.repo_iface client_name names repo = true →
      (request_handles_loop env client_name names i repo handles).reply
        = .tp_svc_connection_return_from_request_handles
            (handles ++ ensured_handles env.repo_iface client_name names repo) ∧
      (request_handles_loop env client_name names i repo handles).calls
        = request_handles_success_calls client_name
            (names.zip (ensured_handles env.repo_iface client_name names repo)) := by
  intro names
  induction names with
  | nil =>
    intro i repo handles _
    simp [request_handles_loop, ensured_handles, request_handles_success_calls]
  | cons name names ih =>
    intro i repo handles hok
    simp only [names_ensured_and_held, Bool.and_eq_true, decide_eq_true_eq] at hok
    obtain ⟨⟨h0, hheld⟩, hrest⟩ := hok
    have hnone : (env.repo_iface.tp_handle_client_hold
        (env.repo_iface.tp_handle_ensure repo name).1 client_name
        (env.repo_iface.tp_handle_ensure repo name).2.1).2 = none := by
      simpa using hheld
    obtain ⟨i1, i2⟩ := ih (i + 1) _ (handles ++ [(env.repo_iface.tp_handle_ensure repo name).2.1])
      hrest
    simp only [request_handles_loop, if_neg h0, hnone, ensured_handles, List.zip_cons_cons,
      request_handles_success_calls, i1, i2]
    simp
    rfl

theorem success_calls_counts (client_name : String) (h : TpHandle) :
    ∀ ps : List (String × TpHandle),
      (request_handles_success_calls client_name ps).count
        (.tp_handle_client_hold client_name h true) = (ps.map Prod.snd).count h ∧
      (request_handles_success_calls client_name ps).count (.tp_handle_unref h)
        = (ps.map Prod.snd).count h ∧
      ((request_handles_success_calls client_name ps).filterMap RepoCall.ensured).count h
        = (ps.map Prod.snd).count h ∧
      (request_handles_success_calls client_name ps).countP RepoCall.is_release = 0 ∧
      (request_handles_success_calls client_name ps).countP RepoCall.is_read_past_end = 0 := by
  intro ps
  induction ps with
  | nil => simp [request_handles_success_calls]
  | cons p ps ih =>
    obtain ⟨name, handle⟩ := p
    obtain ⟨i1, i2, i3, i4, i5⟩ := ih
    simp only [request_handles_success_calls, List.map_cons]
    refine ⟨?_, ?_, ?_, ?_, ?_⟩
    · simp [List.count_cons, i1]
    · simp [List.count_cons, i2]
    · simp [List.count_cons, List.filterMap_cons, RepoCall.ensured, i3]
    · simp [List.countP_cons, RepoCall.is_release, i4]
    · simp [List.countP_cons, RepoCall.is_read_past_end, i5]


theorem success_calls_ensure_mem (client_name : String) :
    ∀ (ps : List (String × TpHandle)) (p : String × TpHandle), p ∈ ps →
      RepoCall.tp_handle_ensure p.1 p.2 ∈ request_handles_success_calls client_name ps := by
  intro ps
  induction ps with
  | nil => intro p hp; simp at hp
  | cons q ps ih =>
    intro p hp
    obtain ⟨name, handle⟩ := q
    simp only [List.mem_cons] at hp
    rcases hp with hp | hp
    · subst hp
      simp [request_handles_success_calls]
    · have := ih p hp
      simp [request_handles_success_calls, this]

/-- The rollback entered at iteration `i` with an array of `i` elements begins with a
read of slot `i`, which was never written, and releases what that slot holds. -/
theorem request_handles_rollback_first_read {R : Type} (env : RequestHandlesEnv R)
    (client_name : String) (handles : List TpHandle) (repo : R) :
    (request_handles_rollback env client_name handles (handles.length + 1) repo).2.take 2
      = [.g_array_index handles.length handles.length,
         .tp_handle_client_release client_name (env.array_storage handles.length)] := by
  simp [request_handles_rollback, g_array_index]



/-! # The claims -/

/-- C1: in every state reachable from a freshly initialised connection by any sequence
of `set_property`, `start_connecting`, `disconnected` and `shut_down` calls, the number
of engine handles created and not yet shut down is at most 1, and so is the number of
registration handles created and not yet unreferenced; each number is 1 exactly when
the connection holds the corresponding handle. -/
theorem at_most_one_engine_and_registration (env : Env) (repo : TpHandleRepo)
    (ops : List Op) :
    engines_alive (run env (World.start (sip_connection_init repo)) ops).trace ≤ 1 ∧
    registrations_alive (run env (World.start (sip_connection_init repo)) ops).trace ≤ 1 ∧
    engines_alive (run env (World.start (sip_connection_init repo)) ops).trace =
      (if (run env (World.start (sip_connection_init repo)) ops).self.priv.sofia_nua.isSome
        then 1 else 0) ∧
    registrations_alive (run env (World.start (sip_connection_init repo)) ops).trace =
      (if (run env (World.start (sip_connection_init repo)) ops).self.priv.register_op.isSome
        then 1 else 0) := by
  obtain ⟨he, hg, _⟩ :=
    lifecycle_invariant_run env ops _ (lifecycle_invariant_init repo)
  unfold engines_alive registrations_alive
  rw [he, hg]
  refine ⟨?_, ?_, ?_, ?_⟩ <;> split <;> simp

/-- C1, at a concrete run: after the construct-time properties and a successful
`start_connecting`, exactly one engine and one registration handle are alive, and the
bound of the theorem holds there. -/
theorem at_most_one_engine_and_registration_witness :
    (run env_ok (World.start (sip_connection_init ⟨[]⟩))
      [.set_property .PROP_SOFIA_ROOT (.v_pointer (some 1)),
       .set_property .PROP_ADDRESS (.v_string (some "sip:alice@example.com")),
       .start_connecting]).aborted = false ∧
    engines_alive (run env_ok (World.start (sip_connection_init ⟨[]⟩))
      [.set_property .PROP_SOFIA_ROOT (.v_pointer (some 1)),
       .set_property .PROP_ADDRESS (.v_string (some "sip:alice@example.com")),
       .start_connecting]).trace = 1 ∧
    engines_alive (run env_ok (World.start (sip_connection_init ⟨[]⟩))
      [.set_property .PROP_SOFIA_ROOT (.v_pointer (some 1)),
       .set_property .PROP_ADDRESS (.v_string (some "sip:alice@example.com")),
       .start_connecting]).trace ≤ 1 :=
  ⟨by decide, by decide,
    (at_most_one_engine_and_registration env_ok ⟨[]⟩
      [.set_property .PROP_SOFIA_ROOT (.v_pointer (some 1)),
       .set_property .PROP_ADDRESS (.v_string (some "sip:alice@example.com")),
       .start_connecting]).1⟩


/-- C2: on a connection in status NEW with its adapter and event root, whose configured
address normalises (to `n`), whose account URL is built from it, and for which engine
creation and registration-handle creation succeed, `start_connecting` returns `TRUE`
with no error; the engine is created with From equal to
`inspect (ensure address)`, which is the normalised address `n`; afterwards the state
holds the engine handle and the registration handle, the self handle is the ensured
handle, the registration handle was created for that self handle, and exactly one
register request is issued, on that registration handle. -/
theorem start_connecting_success (env : Env) (s : SIPConnection)
    (sofia : SIPConnectionSofia) (root : su_root_t) (a n : String) (u : url_t)
    (nua : nua_t) (r : nua_handle_t)
    (h0 : s.parent.status = .TP_INTERNAL_CONNECTION_STATUS_NEW)
    (h1 : s.priv.sofia = some sofia) (h2 : sofia.sofia_root = some root)
    (h3 : s.priv.address = some a)
    (h4 : env.sip_conn_normalize_uri s.priv a = .ok n)
    (h5 : env.url_make n = some u)
    (h6 : start_connecting_nua_create env { s.priv with account_url := some u } root (some n) u
      = some nua)
    (h7 : env.sip_conn_create_register_handle
      { s.priv with account_url := some u, sofia_nua := some nua }
      (tp_handle_ensure (env.sip_conn_normalize_uri s.priv) s.parent.contact_repo a).2.1
      = some r) :
    (sip_connection_start_connecting env s).result = some (true, none) ∧
    tp_handle_inspect
      (tp_handle_ensure (env.sip_conn_normalize_uri s.priv) s.parent.contact_repo a).1
      (tp_handle_ensure (env.sip_conn_normalize_uri s.priv) s.parent.contact_repo a).2.1
      = some n ∧
    (sip_connection_start_connecting env s).events.head? =
      some (.nua_create root
        (tp_handle_inspect
          (tp_handle_ensure (env.sip_conn_normalize_uri s.priv) s.parent.contact_repo a).1
          (tp_handle_ensure (env.sip_conn_normalize_uri s.priv) s.parent.contact_repo a).2.1)
        (env.sip_conn_get_local_url { s.priv with account_url := some u })
        ((env.sip_conn_get_local_url { s.priv with account_url := some u }).filter
          (fun l => l.url_type = .url_sips))
        u.url_user (some nua)) ∧
    (sip_connection_start_connecting env s).events.countP Event.is_engine_created = 1 ∧
    (sip_connection_start_connecting env s).self.priv.sofia_nua = some nua ∧
    (sip_connection_start_connecting env s).self.priv.register_op = some r ∧
    (sip_connection_start_connecting env s).self.parent.self_handle =
      (tp_handle_ensure (env.sip_conn_normalize_uri s.priv) s.parent.contact_repo a).2.1 ∧
    Event.sip_conn_create_register_handle
        { s.priv with account_url := some u, sofia_nua := some nua }
        (sip_connection_start_connecting env s).self.parent.self_handle (some r)
      ∈ (sip_connection_start_connecting env s).events ∧
    (sip_connection_start_connecting env s).events.filter Event.is_register_create_call =
      [.sip_conn_create_register_handle
        { s.priv with account_url := some u, sofia_nua := some nua }
        (sip_connection_start_connecting env s).self.parent.self_handle (some r)] ∧
    (sip_connection_start_connecting env s).events.filter Event.is_register_request =
      [.nua_register r] := by
  obtain ⟨_, _, he3⟩ :=
    tp_handle_ensure_ok (env.sip_conn_normalize_uri s.priv) s.parent.contact_repo a n h4
  have hc := nua_create_event_created env { s.priv with account_url := some u } root (some n) u
  rw [h6] at hc
  have hev : start_connecting_nua_create_event env { s.priv with account_url := some u } root
      (some n) u =
      .nua_create root (some n)
        (env.sip_conn_get_local_url { s.priv with account_url := some u })
        ((env.sip_conn_get_local_url { s.priv with account_url := some u }).filter
          (fun l => l.url_type = .url_sips))
        u.url_user (some nua) := by
    simp only [start_connecting_nua_create_event, h6]
  rw [start_connecting_to_stack env s sofia root a n u h0 h1 h2 h3 h4 h5,
    stack_stage_register_ok _ _ _ _ _ _ _ nua r h6 h7, he3]
  refine ⟨rfl, rfl, ?_, ?_, rfl, rfl, rfl, ?_, ?_, ?_⟩
  · simp only [List.head?_cons, hev]
  · simp only [List.countP_cons, List.countP_nil, List.countP_append, hc,
      stun_no_engine_created]
    simp [Event.is_engine_created]
  · simp [base_after_ensure]
  · simp only [List.filter_cons, List.filter_append, List.filter_nil, nua_create_event_flags,
      stun_filter_register_create_call]
    simp [Event.is_register_create_call, base_after_ensure]
  · simp only [List.filter_cons, List.filter_append, List.filter_nil, nua_create_event_flags,
      stun_filter_register_request]
    simp [Event.is_register_request]


/-- C2 at a concrete input: the connection of `sip:alice@example.com` in an environment
where every collaborator succeeds. The hypotheses hold there, the call returns `TRUE`,
the engine `7` and the registration handle `9` are held, and the one register request
is on handle `9`. -/
theorem start_connecting_success_witness :
    conn_alice.parent.status = .TP_INTERNAL_CONNECTION_STATUS_NEW ∧
    conn_alice.priv.address = some "sip:alice@example.com" ∧
    env_ok.sip_conn_normalize_uri conn_alice.priv "sip:alice@example.com"
      = .ok "sip:alice@example.com" ∧
    (sip_connection_start_connecting env_ok conn_alice).result = some (true, none) ∧
    (sip_connection_start_connecting env_ok conn_alice).self.priv.sofia_nua = some 7 ∧
    (sip_connection_start_connecting env_ok conn_alice).self.priv.register_op = some 9 ∧
    (sip_connection_start_connecting env_ok conn_alice).events.filter Event.is_register_request
      = [.nua_register 9] :=
  have h := start_connecting_success env_ok conn_alice ⟨true, some 1⟩ 1
    "sip:alice@example.com" "sip:alice@example.com"
    ⟨.url_sip, some "alice", some "example.com"⟩ 7 9 rfl rfl rfl rfl rfl rfl rfl rfl
  ⟨rfl, rfl, rfl, h.1, h.2.2.2.2.1, h.2.2.2.2.2.1, h.2.2.2.2.2.2.2.2.2⟩


/-- C3, the claim as stated fails: on a connection with no address configured
`start_connecting` returns `FALSE` and leaves the caller without an error. -/
theorem start_connecting_no_address_returns_no_error :
    conn_no_address.priv.address = none ∧
    (sip_connection_start_connecting env_ok conn_no_address).result = some (false, none) :=
  ⟨rfl, rfl⟩

/-- C3, amended: on a connection that passes the entry assertions, (1) whenever ensuring
the account handle yields no handle, or the account URL cannot be built, or engine
creation returns no engine, `start_connecting` returns `FALSE` with an error set, makes
no attempt to create a registration handle, leaves the registration field as it was and
issues no register request; (2) with an address configured, every failing return
carries an error; (3) with no address configured, the guard returns `FALSE` without
an error and without any effect. -/
theorem start_connecting_failure_reported (env : Env) (s : SIPConnection)
    (sofia : SIPConnectionSofia) (root : su_root_t)
    (h0 : s.parent.status = .TP_INTERNAL_CONNECTION_STATUS_NEW)
    (h1 : s.priv.sofia = some sofia) (h2 : sofia.sofia_root = some root) :
    (∀ a, s.priv.address = some a →
      ((tp_handle_ensure (env.sip_conn_normalize_uri s.priv) s.parent.contact_repo a).2.1 = 0 ∨
       (∃ n, env.sip_conn_normalize_uri s.priv a = .ok n ∧ env.url_make n = none) ∨
       (∃ n u, env.sip_conn_normalize_uri s.priv a = .ok n ∧ env.url_make n = some u ∧
          start_connecting_nua_create env { s.priv with account_url := some u } root (some n) u
            = none)) →
      (∃ e, (sip_connection_start_connecting env s).result = some (false, some e)) ∧
      (sip_connection_start_connecting env s).events.countP Event.is_register_create_call = 0 ∧
      (sip_connection_start_connecting env s).events.countP Event.is_register_request = 0 ∧
      (sip_connection_start_connecting env s).self.priv.register_op = s.priv.register_op) ∧
    (∀ a err, s.priv.address = some a →
      (sip_connection_start_connecting env s).result = some (false, err) → err ≠ none) ∧
    (s.priv.address = none →
      sip_connection_start_connecting env s =
        { self := s, events := [], result := some (false, none) }) := by
  refine ⟨?_, ?_, ?_⟩
  · intro a h3 hfail
    rcases hfail with hA | ⟨n, h4, h5⟩ | ⟨n, u, h4, h5, h6⟩
    · cases h4 : env.sip_conn_normalize_uri s.priv a with
      | ok n =>
        exact absurd hA
          (tp_handle_ensure_ok (env.sip_conn_normalize_uri s.priv) s.parent.contact_repo a n h4).1
      | error e =>
        rw [start_connecting_ensure_fail env s sofia root a e h0 h1 h2 h3 h4]
        exact ⟨⟨e, rfl⟩, rfl, rfl, rfl⟩
    · rw [start_connecting_url_fail env s sofia root a n h0 h1 h2 h3 h4 h5]
      exact ⟨⟨_, rfl⟩, rfl, rfl, rfl⟩
    · rw [start_connecting_to_stack env s sofia root a n u h0 h1 h2 h3 h4 h5,
        stack_stage_fail _ _ _ _ _ _ _ h6]
      refine ⟨⟨_, rfl⟩, ?_, ?_, rfl⟩
      · simp only [List.countP_cons, List.countP_nil, nua_create_event_flags]
        simp
      · simp only [List.countP_cons, List.countP_nil, nua_create_event_flags]
        simp
  · intro a err h3
    apply start_connecting_cases env s (fun c => c.result = some (false, err) → err ≠ none)
    · intro _ hres
      simp [Call.aborted] at hres
    · intro _ _ _ _ _ h3n
      rw [h3] at h3n
      cases h3n
    · intro _ _ _ e _ _ _ _ _ hres
      simp only [Option.some.injEq, Prod.mk.injEq, true_and] at hres
      rw [← hres]
      simp
    · intro _ _ _ _ _ _ _ _ _ _ hres
      simp only [Option.some.injEq, Prod.mk.injEq, true_and] at hres
      rw [← hres]
      simp
    · intro _ _ _ _ _ _ _ _ _ _ _ _ hres
      simp only [Option.some.injEq, Prod.mk.injEq, true_and] at hres
      rw [← hres]
      simp
    · intro _ _ _ n u nua _ _ _ _ _ _ h6 h7
      rw [stack_stage_register_fail _ _ _ _ _ _ _ nua h6 h7]
      intro hres
      simp only [Option.some.injEq, Prod.mk.injEq, true_and] at hres
      rw [← hres]
      simp
    · intro _ _ _ n u nua r _ _ _ _ _ _ h6 h7
      rw [stack_stage_register_ok _ _ _ _ _ _ _ nua r h6 h7]
      intro hres
      simp at hres
  · intro h3
    exact start_connecting_no_address env s sofia root h0 h1 h2 h3

/-- C3, amended, at concrete inputs: with an address that does not normalise the
normaliser's error is returned and nothing is created; with no address the guard
returns `FALSE` with no error. -/
theorem start_connecting_failure_reported_witness :
    (∃ e, (sip_connection_start_connecting env_no_normalize conn_alice).result
      = some (false, some e)) ∧
    (sip_connection_start_connecting env_no_normalize conn_alice).events.countP
      Event.is_register_create_call = 0 ∧
    sip_connection_start_connecting env_ok conn_no_address =
      { self := conn_no_address, events := [], result := some (false, none) } :=
  have h := (start_connecting_failure_reported env_no_normalize conn_alice ⟨true, some 1⟩ 1
    rfl rfl rfl).1 "sip:alice@example.com" rfl (Or.inl rfl)
  ⟨h.1, h.2.1,
    (start_connecting_failure_reported env_ok conn_no_address ⟨true, some 1⟩ 1
      rfl rfl rfl).2.2 rfl⟩


/-- C4: take a connection that holds neither an engine nor a registration handle, and a
run of `start_connecting` on it that fails, at whichever failure point, followed by
`disconnected` and `shut_down`. Then `shut_down` passes its assertions; the number of
engine shutdown requests over the three calls equals the number of engines created
(one or none), and the request is on the engine that was created; no handle is
unreferenced; and the final state holds neither an engine handle nor a registration
handle (nor the adapter). -/
theorem failed_connect_releases_once (env : Env) (s : SIPConnection) (err : Option GError)
    (hn : s.priv.sofia_nua = none) (hr : s.priv.register_op = none)
    (hfail : (sip_connection_start_connecting env s).result = some (false, err)) :
    (sip_connection_shut_down (sip_connection_disconnected
      (sip_connection_start_connecting env s).self).self).result = some () ∧
    ((sip_connection_start_connecting env s).events ++
      (sip_connection_disconnected (sip_connection_start_connecting env s).self).events ++
      (sip_connection_shut_down (sip_connection_disconnected
        (sip_connection_start_connecting env s).self).self).events).countP
        Event.is_engine_shutdown =
      (sip_connection_start_connecting env s).events.countP Event.is_engine_created ∧
    (sip_connection_start_connecting env s).events.countP Event.is_engine_created ≤ 1 ∧
    (∀ nua, (sip_connection_start_connecting env s).self.priv.sofia_nua = some nua →
      Event.nua_shutdown nua ∈ (sip_connection_shut_down (sip_connection_disconnected
        (sip_connection_start_connecting env s).self).self).events) ∧
    ((sip_connection_start_connecting env s).events ++
      (sip_connection_disconnected (sip_connection_start_connecting env s).self).events ++
      (sip_connection_shut_down (sip_connection_disconnected
        (sip_connection_start_connecting env s).self).self).events).countP
        Event.is_handle_unref = 0 ∧
    (sip_connection_shut_down (sip_connection_disconnected
      (sip_connection_start_connecting env s).self).self).self.priv.sofia_nua = none ∧
    (sip_connection_shut_down (sip_connection_disconnected
      (sip_connection_start_connecting env s).self).self).self.priv.register_op = none ∧
    (sip_connection_shut_down (sip_connection_disconnected
      (sip_connection_start_connecting env s).self).self).self.priv.sofia = none := by
  obtain ⟨sofia, hs⟩ := start_connecting_returns_sofia env s (by rw [hfail]; simp)
  obtain ⟨c1, c2, c3, _, c5, c6⟩ := start_connecting_counts env s hn hr
  have hreg := c6 err hfail
  rw [hs] at c1
  generalize sip_connection_start_connecting env s = c at *
  rw [disconnected_without_handle c.self hreg]
  cases hnua : c.self.priv.sofia_nua with
  | none =>
    rw [shut_down_without_engine c.self sofia hreg c1 hnua]
    rw [hnua] at c2
    simp only [List.countP_append, c2, c3, c5]
    simp [Event.is_engine_shutdown, Event.is_handle_unref, hreg]
  | some nua =>
    rw [shut_down_with_engine c.self sofia nua hreg c1 hnua]
    rw [hnua] at c2
    simp only [List.countP_append, c2, c3, c5]
    simp [Event.is_engine_shutdown, Event.is_handle_unref, hreg]

/-- C4 at a concrete input: the engine `7` is created, the registration handle cannot
be; the teardown requests the shutdown of engine `7` exactly once. -/
theorem failed_connect_releases_once_witness :
    (sip_connection_start_connecting env_no_register conn_alice).events.countP
      Event.is_engine_created = 1 ∧
    ((sip_connection_start_connecting env_no_register conn_alice).events ++
      (sip_connection_disconnected
        (sip_connection_start_connecting env_no_register conn_alice).self).events ++
      (sip_connection_shut_down (sip_connection_disconnected
        (sip_connection_start_connecting env_no_register conn_alice).self).self).events).countP
        Event.is_engine_shutdown =
      (sip_connection_start_connecting env_no_register conn_alice).events.countP
        Event.is_engine_created ∧
    Event.nua_shutdown 7 ∈ (sip_connection_shut_down (sip_connection_disconnected
        (sip_connection_start_connecting env_no_register conn_alice).self).self).events :=
  have h := failed_connect_releases_once env_no_register conn_alice
    (some ⟨.TP_ERROR_NOT_AVAILABLE,
      "Unable to create registration handle for address sip:alice@example.com"⟩)
    rfl rfl (by decide)
  ⟨by decide, h.2.1, h.2.2.2.1 7 rfl⟩


/-- C5: the resolver actions started by a successful `start_connecting` are a function
of `(stun_host, discover_stun)` alone, namely the spec's three modes: an explicit STUN
host is resolved directly and nothing else is started, whatever the discovery flag;
with no host and the flag set, discovery alone is started; with neither, nothing is
started. Every run of `start_connecting`, successful or not, starts at most one
resolver action. -/
theorem stun_mode_chosen_at_connect (env : Env) (s : SIPConnection) :
    (∀ err, (sip_connection_start_connecting env s).result = some (true, err) →
      stun_actions (sip_connection_start_connecting env s).events
        = spec_stun_mode s.priv.stun_host s.priv.discover_stun ∧
      (∀ host, s.priv.stun_host = some host →
        stun_actions (sip_connection_start_connecting env s).events = [.resolve host]) ∧
      (s.priv.stun_host = none → s.priv.discover_stun = true →
        stun_actions (sip_connection_start_connecting env s).events = [.discover]) ∧
      (s.priv.stun_host = none → s.priv.discover_stun = false →
        stun_actions (sip_connection_start_connecting env s).events = [])) ∧
    (stun_actions (sip_connection_start_connecting env s).events).length ≤ 1 := by
  rcases start_connecting_stun_actions env s with ⟨h, _⟩ | ⟨h, hno⟩
  · refine ⟨fun err _ => ⟨h, ?_, ?_, ?_⟩, ?_⟩
    · intro host hh
      rw [h, hh]
      rfl
    · intro hh hd
      rw [h, hh, hd]
      rfl
    · intro hh hd
      rw [h, hh, hd]
      rfl
    · rw [h]
      exact spec_stun_mode_length _ _
  · refine ⟨fun err hres => absurd hres (hno err), ?_⟩
    rw [h]
    simp

/-- C5 at concrete inputs: with STUN host `stun.example.com` configured and the
discovery flag set, the host is resolved and no discovery is started; with no host and
the flag set, discovery is started. -/
theorem stun_mode_chosen_at_connect_witness :
    stun_actions (sip_connection_start_connecting env_ok
      (sip_connection_set_property env_ok
        (sip_connection_set_property env_ok conn_alice .PROP_DISCOVER_STUN
          (.v_boolean true)).self
        .PROP_STUN_SERVER (.v_string (some "stun.example.com"))).self).events
      = [.resolve "stun.example.com"] ∧
    stun_actions (sip_connection_start_connecting env_ok
      (sip_connection_set_property env_ok conn_alice .PROP_DISCOVER_STUN
        (.v_boolean true)).self).events
      = [.discover] :=
  ⟨((stun_mode_chosen_at_connect env_ok
      (sip_connection_set_property env_ok
        (sip_connection_set_property env_ok conn_alice .PROP_DISCOVER_STUN
          (.v_boolean true)).self
        .PROP_STUN_SERVER (.v_string (some "stun.example.com"))).self).1 none rfl).2.1
      "stun.example.com" rfl,
   ((stun_mode_chosen_at_connect env_ok
      (sip_connection_set_property env_ok conn_alice .PROP_DISCOVER_STUN
        (.v_boolean true)).self).1 none rfl).2.2.1 rfl rfl⟩


/-- C6: after a successful `start_connecting`, (1) the first `disconnected` issues the
unregister request and unreferences the registration handle, once; (2) a second
`disconnected` on the resulting state issues no unregister request, unreferences
nothing and leaves the state unchanged; (3) in a sequence of calls following the
connect, no reference is dropped before the first `disconnected`; (4) whatever calls
follow the first `disconnected`, the registration handle has been unreferenced exactly
once, and one unregister request has been issued, over the whole run. -/
theorem registration_destroyed_exactly_once (env : Env) (s : SIPConnection)
    (err : Option GError)
    (hs : (sip_connection_start_connecting env s).result = some (true, err)) :
    (∃ r, (sip_connection_start_connecting env s).self.priv.register_op = some r ∧
      (sip_connection_disconnected (sip_connection_start_connecting env s).self).events
        = [.nua_unregister r, .nua_handle_unref r] ∧
      (sip_connection_disconnected (sip_connection_start_connecting env s).self).self.priv.register_op
        = none) ∧
    sip_connection_disconnected
        (sip_connection_disconnected (sip_connection_start_connecting env s).self).self
      = { self := (sip_connection_disconnected (sip_connection_start_connecting env s).self).self
          events := [], result := some () } ∧
    (∀ pre, Op.disconnected ∉ pre →
      (run env (World.start s) (.start_connecting :: pre)).trace.countP Event.is_handle_unref
        = 0) ∧
    (∀ pre post, Op.disconnected ∉ pre →
      (run env (World.start s) (.start_connecting :: pre)).aborted = false →
      (run env (World.start s) (.start_connecting :: (pre ++ .disconnected :: post))).trace.countP
          Event.is_handle_unref = 1 ∧
      (run env (World.start s) (.start_connecting :: (pre ++ .disconnected :: post))).trace.countP
          Event.is_unregister_request = 1) := by
  obtain ⟨⟨r, hr⟩, hu, hq⟩ := start_connecting_true env s err hs
  have hw := step_start_connecting_true env s err hs
  have hst : (step env (World.start s) .start_connecting).self.parent.status
      ≠ .TP_INTERNAL_CONNECTION_STATUS_NEW := by rw [hw]; simp
  have hrw : (step env (World.start s) .start_connecting).self.priv.register_op = some r := by
    rw [hw]; exact hr
  have hcu : (step env (World.start s) .start_connecting).trace.countP Event.is_handle_unref
      = 0 := by rw [hw]; exact hu
  have hcq : (step env (World.start s) .start_connecting).trace.countP
      Event.is_unregister_request = 0 := by rw [hw]; exact hq
  refine ⟨⟨r, hr, ?_, ?_⟩, ?_, ?_, ?_⟩
  · rw [disconnected_with_handle _ r hr]
  · rw [disconnected_with_handle _ r hr]
  · rw [disconnected_with_handle _ r hr]
    exact disconnected_without_handle _ rfl
  · intro pre hpre
    rw [run_cons]
    obtain ⟨_, _, h3, _⟩ := run_before_release env r pre _ hst hrw hpre
    rw [h3, hcu]
  · intro pre post hpre hab
    rw [run_cons] at hab
    rw [run_cons, run_append, run_cons]
    obtain ⟨h1, h2, h3, h4⟩ := run_before_release env r pre _ hst hrw hpre
    generalize run env (step env (World.start s) .start_connecting) pre = w2 at *
    have hstep : step env w2 .disconnected =
        { w2 with
          self := { w2.self with priv := { w2.self.priv with register_op := none } }
          trace := w2.trace ++ [.nua_unregister r, .nua_handle_unref r] } := by
      simp [step, hab, disconnected_with_handle _ r h2]
    obtain ⟨i1, i2⟩ := run_after_release env post (step env w2 .disconnected)
      (by rw [hstep]; exact h1) (by rw [hstep])
    rw [i1, i2, hstep]
    simp only [List.countP_append, h3, h4, hcu, hcq]
    simp [Event.is_handle_unref, Event.is_unregister_request]

/-- C6 at a concrete input: connect, set a property, disconnect, disconnect again and
shut down; the registration handle `9` is unreferenced exactly once. -/
theorem registration_destroyed_exactly_once_witness :
    (sip_connection_start_connecting env_ok conn_alice).result = some (true, none) ∧
    (sip_connection_disconnected conn_registering).events
      = [.nua_unregister 9, .nua_handle_unref 9] ∧
    (run env_ok (World.start conn_alice)
      (.start_connecting ::
        ([.set_property .PROP_PASSWORD (.v_string (some "secret"))] ++
          .disconnected :: [.disconnected, .shut_down]))).trace.countP
        Event.is_handle_unref = 1 :=
  have h := registration_destroyed_exactly_once env_ok conn_alice none rfl
  ⟨rfl, rfl,
    (h.2.2.2 [.set_property .PROP_PASSWORD (.v_string (some "secret"))]
      [.disconnected, .shut_down] (by decide) (by decide)).1⟩


/-- C7, the claim as stated fails: on the connection that holds engine `7` and
registration handle `9`, `disconnected` drops the reference on the handle in the same
call that issues the unregister request, so in the trace the unref comes before the
unregister-completion event, whenever the engine delivers it afterwards. -/
theorem unref_precedes_unregister_completion :
    conn_registering.priv.sofia_nua = some 7 ∧
    conn_registering.priv.register_op = some 9 ∧
    none_before Event.is_unregister_completion
      (fun e => e.is_handle_unref || e.is_engine_shutdown)
      ((sip_connection_disconnected conn_registering).events ++ [.nua_r_unregister 9 200])
      = false := by
  decide

/-- C7, amended: with a registration handle present, `disconnected` issues the
unregister request and then, in the same call and with no completion event awaited,
unreferences the handle and clears the field. The unref does not precede the unregister
request; the call itself issues no engine shutdown request and leaves the engine handle
and the adapter in place. -/
theorem disconnected_unregisters_then_unrefs (s : SIPConnection) (r : nua_handle_t)
    (h : s.priv.register_op = some r) :
    (sip_connection_disconnected s).events = [.nua_unregister r, .nua_handle_unref r] ∧
    (sip_connection_disconnected s).self.priv.register_op = none ∧
    none_before Event.is_unregister_request Event.is_handle_unref
      (sip_connection_disconnected s).events = true ∧
    (sip_connection_disconnected s).events.countP Event.is_unregister_completion = 0 ∧
    (sip_connection_disconnected s).events.countP Event.is_engine_shutdown = 0 ∧
    (sip_connection_disconnected s).self.priv.sofia_nua = s.priv.sofia_nua ∧
    (sip_connection_disconnected s).self.priv.sofia = s.priv.sofia ∧
    (sip_connection_disconnected s).result = some () := by
  rw [disconnected_with_handle s r h]
  simp [none_before, Event.is_unregister_request, Event.is_handle_unref,
    Event.is_unregister_completion, Event.is_engine_shutdown]

/-- C7, amended, at a concrete input: the connected connection with engine `7` and
registration handle `9`. -/
theorem disconnected_unregisters_then_unrefs_witness :
    conn_registering.priv.register_op = some 9 ∧
    (sip_connection_disconnected conn_registering).events
      = [.nua_unregister 9, .nua_handle_unref 9] ∧
    (sip_connection_disconnected conn_registering).self.priv.sofia_nua = some 7 :=
  have h := disconnected_unregisters_then_unrefs conn_registering 9 rfl
  ⟨rfl, h.1, h.2.2.2.2.2.1⟩

/-- C8, the claim as stated fails: on the connection that still holds engine `7`,
`shut_down` tells the base connection that shutdown is finished in the same call that
requests the engine's shutdown, so in the trace the notification comes before the
engine's shutdown-completion event, whenever the engine delivers it afterwards. -/
theorem finish_shutdown_precedes_shutdown_completion :
    conn_unregistered.priv.sofia_nua = some 7 ∧
    (sip_connection_shut_down conn_unregistered).events
      = [.sofia_conn_cleared, .nua_shutdown 7, .tp_base_connection_finish_shutdown] ∧
    none_before Event.is_shutdown_completion Event.is_finish_shutdown
      ((sip_connection_shut_down conn_unregistered).events ++ [.nua_r_shutdown 7 200])
      = false := by
  decide

/-- C8, amended: when `shut_down` runs (no registration handle, adapter present), with
an engine held it detaches the adapter, requests the engine's shutdown and then, in the
same call and with no completion event awaited, tells the base connection that shutdown
is finished; with no engine it detaches the adapter, destroys it and finishes likewise.
In both cases the notification is the last event of the call and is sent once, and the
shutdown request precedes it. -/
theorem shut_down_finishes_in_same_call (s : SIPConnection) (sofia : SIPConnectionSofia)
    (hr : s.priv.register_op = none) (hs : s.priv.sofia = some sofia) :
    (∀ nua, s.priv.sofia_nua = some nua →
      (sip_connection_shut_down s).events
        = [.sofia_conn_cleared, .nua_shutdown nua, .tp_base_connection_finish_shutdown]) ∧
    (s.priv.sofia_nua = none →
      (sip_connection_shut_down s).events
        = [.sofia_conn_cleared, .sip_connection_sofia_destroy { sofia with conn := false },
           .tp_base_connection_finish_shutdown]) ∧
    (sip_connection_shut_down s).events.getLast? = some .tp_base_connection_finish_shutdown ∧
    (sip_connection_shut_down s).events.countP Event.is_finish_shutdown = 1 ∧
    (sip_connection_shut_down s).events.countP Event.is_shutdown_completion = 0 ∧
    none_before Event.is_engine_shutdown Event.is_finish_shutdown
      (sip_connection_shut_down s).events = s.priv.sofia_nua.isSome ∧
    (sip_connection_shut_down s).result = some () := by
  cases hn : s.priv.sofia_nua with
  | none =>
    rw [shut_down_without_engine s sofia hr hs hn]
    simp [none_before, Event.is_engine_shutdown, Event.is_finish_shutdown,
      Event.is_shutdown_completion]
  | some nua =>
    rw [shut_down_with_engine s sofia nua hr hs hn]
    simp [none_before, Event.is_engine_shutdown, Event.is_finish_shutdown,
      Event.is_shutdown_completion]

/-- C8, amended, at concrete inputs: with engine `7` the shutdown is requested and
finished in one call; on the never-connected connection the adapter is destroyed and
the shutdown finished. -/
theorem shut_down_finishes_in_same_call_witness :
    (sip_connection_shut_down conn_unregistered).events
      = [.sofia_conn_cleared, .nua_shutdown 7, .tp_base_connection_finish_shutdown] ∧
    (sip_connection_shut_down conn_alice).events
      = [.sofia_conn_cleared, .sip_connection_sofia_destroy ⟨false, some 1⟩,
         .tp_base_connection_finish_shutdown] :=
  ⟨(shut_down_finishes_in_same_call conn_unregistered ⟨true, some 1⟩ rfl rfl).1 7 rfl,
   (shut_down_finishes_in_same_call conn_alice ⟨true, some 1⟩ rfl rfl).2.1 rfl⟩


/-- C9, the claim as stated fails: right after a successful `start_connecting` no
registration has succeeded (the engine has reported nothing), yet `disconnected` issues
an unregister request, drops the reference on the handle and changes the state. -/
theorem unregister_issued_though_no_registration_succeeded :
    (sip_connection_start_connecting env_ok conn_alice).events.countP Event.is_register_success
      = 0 ∧
    (sip_connection_disconnected (sip_connection_start_connecting env_ok conn_alice).self).events
      = [.nua_unregister 9, .nua_handle_unref 9] ∧
    (sip_connection_disconnected (sip_connection_start_connecting env_ok conn_alice).self).self
      ≠ (sip_connection_start_connecting env_ok conn_alice).self := by
  decide

/-- C9, amended: in every state with no registration handle, `disconnected` issues no
unregister request, unreferences nothing and leaves the state unchanged, and `shut_down`
passes its assertions afterwards as long as the adapter is present. A freshly
initialised connection is such a state, and so is the state left by any failing
`start_connecting` on a connection that held no registration handle. -/
theorem disconnected_without_registration_is_noop (s : SIPConnection)
    (h : s.priv.register_op = none) :
    sip_connection_disconnected s = { self := s, events := [], result := some () } ∧
    (sip_connection_disconnected s).events.countP Event.is_unregister_request = 0 ∧
    (sip_connection_disconnected s).events.countP Event.is_handle_unref = 0 ∧
    (s.priv.sofia ≠ none →
      (sip_connection_shut_down (sip_connection_disconnected s).self).result = some ()) ∧
    (∀ repo, (sip_connection_init repo).priv.register_op = none) ∧
    (∀ env err, (sip_connection_start_connecting env s).result = some (false, err) →
      (sip_connection_start_connecting env s).self.priv.register_op = none ∧
      sip_connection_disconnected (sip_connection_start_connecting env s).self
        = { self := (sip_connection_start_connecting env s).self
            events := [], result := some () }) := by
  rw [disconnected_without_handle s h]
  refine ⟨rfl, rfl, rfl, ?_, fun _ => rfl, ?_⟩
  · intro hs
    cases hsf : s.priv.sofia with
    | none => exact absurd hsf hs
    | some sofia =>
      cases hn : s.priv.sofia_nua with
      | none => rw [shut_down_without_engine s sofia h hsf hn]
      | some nua => rw [shut_down_with_engine s sofia nua h hsf hn]
  · intro env err
    revert h
    apply start_connecting_cases env s (fun c => s.priv.register_op = none →
      c.result = some (false, err) →
      c.self.priv.register_op = none ∧
      sip_connection_disconnected c.self = { self := c.self, events := [], result := some () })
    · intro _ _ hres
      simp [Call.aborted] at hres
    · intro _ _ _ _ _ _ h _
      exact ⟨h, disconnected_without_handle _ h⟩
    · intro _ _ _ _ _ _ _ _ _ h _
      exact ⟨h, disconnected_without_handle _ h⟩
    · intro _ _ _ _ _ _ _ _ _ _ h _
      exact ⟨h, disconnected_without_handle _ h⟩
    · intro _ _ _ _ _ _ _ _ _ _ _ _ h _
      exact ⟨h, disconnected_without_handle _ h⟩
    · intro _ _ _ _ _ nua _ _ _ _ _ _ h6 h7 _ _
      rw [stack_stage_register_fail _ _ _ _ _ _ _ nua h6 h7]
      exact ⟨rfl, disconnected_without_handle _ rfl⟩
    · intro _ _ _ _ _ nua r _ _ _ _ _ _ h6 h7 _
      rw [stack_stage_register_ok _ _ _ _ _ _ _ nua r h6 h7]
      intro hres
      simp at hres

/-- C9, amended, at concrete inputs: the never-connected connection, and the one whose
`start_connecting` failed for want of a registration handle. -/
theorem disconnected_without_registration_is_noop_witness :
    sip_connection_disconnected conn_alice
      = { self := conn_alice, events := [], result := some () } ∧
    (sip_connection_shut_down (sip_connection_disconnected conn_alice).self).result = some () ∧
    (sip_connection_disconnected
      (sip_connection_start_connecting env_no_register conn_alice).self).events = [] :=
  have h := disconnected_without_registration_is_noop conn_alice rfl
  ⟨h.1, h.2.2.2.1 (by decide),
    congrArg Call.events
      (h.2.2.2.2.2 env_no_register
        (some ⟨.TP_ERROR_NOT_AVAILABLE,
          "Unable to create registration handle for address sip:alice@example.com"⟩)
        (by decide)).2⟩

/-- C10: `start_connecting` is defined only on a connection whose status is NEW. In
every state whose status is Connecting, Connected or Disconnected the entry assertion
fails: the call does not return, emits no event (no engine is created, no register
request is issued) and leaves the connection as it was (no handle is ensured, the self
handle and the repository are untouched). -/
theorem start_connecting_only_from_new (env : Env) (s : SIPConnection)
    (h : s.parent.status = .TP_CONNECTION_STATUS_CONNECTING ∨
         s.parent.status = .TP_CONNECTION_STATUS_CONNECTED ∨
         s.parent.status = .TP_CONNECTION_STATUS_DISCONNECTED) :
    sip_connection_start_connecting env s = { self := s, events := [], result := none } ∧
    (sip_connection_start_connecting env s).result = none ∧
    (sip_connection_start_connecting env s).events = [] ∧
    (sip_connection_start_connecting env s).self.parent.contact_repo = s.parent.contact_repo ∧
    (sip_connection_start_connecting env s).self.parent.self_handle = s.parent.self_handle ∧
    (sip_connection_start_connecting env s).self.priv = s.priv := by
  have hne : s.parent.status ≠ .TP_INTERNAL_CONNECTION_STATUS_NEW := by
    rcases h with h | h | h <;> rw [h] <;> simp
  rw [start_connecting_not_new env s hne]
  exact ⟨rfl, rfl, rfl, rfl, rfl, rfl⟩

/-- C10 at a concrete input: the connection of `sip:alice@example.com` once its status
is Disconnected; the same connection in status NEW does return. -/
theorem start_connecting_only_from_new_witness :
    (sip_connection_start_connecting env_ok
      { conn_alice with
        parent := { conn_alice.parent with status := .TP_CONNECTION_STATUS_DISCONNECTED } }).result
      = none ∧
    (sip_connection_start_connecting env_ok
      { conn_alice with
        parent := { conn_alice.parent with status := .TP_CONNECTION_STATUS_DISCONNECTED } }).events
      = [] ∧
    (sip_connection_start_connecting env_ok conn_alice).result ≠ none :=
  have h := start_connecting_only_from_new env_ok
    { conn_alice with
      parent := { conn_alice.parent with status := .TP_CONNECTION_STATUS_DISCONNECTED } }
    (Or.inr (Or.inr rfl))
  ⟨h.2.1, h.2.2.1, by decide⟩


/-- C11, the claim as stated fails: on a connection that holds engine `7` and whose
keepalive mechanism is None, setting the keepalive interval to `30` stores the value
and makes no call on the engine. -/
theorem keepalive_interval_not_applied_when_none :
    conn_keepalive_none.priv.sofia_nua = some 7 ∧
    conn_keepalive_none.priv.keepalive_mechanism = .SIP_CONNECTION_KEEPALIVE_NONE ∧
    (sip_connection_set_property env_ok conn_keepalive_none .PROP_KEEPALIVE_INTERVAL
      (.v_int 30)).self.priv.keepalive_interval = 30 ∧
    (sip_connection_set_property env_ok conn_keepalive_none .PROP_KEEPALIVE_INTERVAL
      (.v_int 30)).events = [] := by
  decide

/-- C11, amended: while an engine handle is held, setting keepalive-mechanism to `m`
stores `m` and applies the outbound and the keepalive-interval update to the engine,
for every `m`, None included; setting keepalive-interval to `i` stores `i` and applies
the keepalive-interval update when the configured mechanism is not None, and only
stores `i` when it is None. Each update is handed the state that already holds the new
value. -/
theorem keepalive_rearmed_with_engine (env : Env) (s : SIPConnection) (nua : nua_t)
    (hn : s.priv.sofia_nua = some nua) :
    (∀ m,
      (sip_connection_set_property env s .PROP_KEEPALIVE_MECHANISM (.v_enum m)).self.priv
        = { s.priv with keepalive_mechanism := m } ∧
      (sip_connection_set_property env s .PROP_KEEPALIVE_MECHANISM (.v_enum m)).events
        = [.sip_conn_update_nua_outbound { s.priv with keepalive_mechanism := m },
           .sip_conn_update_nua_keepalive_interval { s.priv with keepalive_mechanism := m }]) ∧
    (∀ i,
      (sip_connection_set_property env s .PROP_KEEPALIVE_INTERVAL (.v_int i)).self.priv
        = { s.priv with keepalive_interval := i } ∧
      (s.priv.keepalive_mechanism ≠ .SIP_CONNECTION_KEEPALIVE_NONE →
        (sip_connection_set_property env s .PROP_KEEPALIVE_INTERVAL (.v_int i)).events
          = [.sip_conn_update_nua_keepalive_interval { s.priv with keepalive_interval := i }]) ∧
      (s.priv.keepalive_mechanism = .SIP_CONNECTION_KEEPALIVE_NONE →
        (sip_connection_set_property env s .PROP_KEEPALIVE_INTERVAL (.v_int i)).events = [])) := by
  refine ⟨fun m => ?_, fun i => ?_⟩
  · simp [sip_connection_set_property, g_value_get_enum, hn]
  · refine ⟨?_, ?_, ?_⟩
    · simp only [sip_connection_set_property, g_value_get_int]
      split <;> rfl
    · intro hm
      simp [sip_connection_set_property, g_value_get_int, hn, hm]
    · intro hm
      simp [sip_connection_set_property, g_value_get_int, hn, hm]

/-- C11, amended, at a concrete input: on the connected connection (engine `7`,
mechanism Auto) a new interval is applied to the engine. -/
theorem keepalive_rearmed_with_engine_witness :
    conn_registering.priv.sofia_nua = some 7 ∧
    (sip_connection_set_property env_ok conn_registering .PROP_KEEPALIVE_INTERVAL
      (.v_int 30)).events
      = [.sip_conn_update_nua_keepalive_interval
          { conn_registering.priv with keepalive_interval := 30 }] :=
  ⟨rfl, ((keepalive_rearmed_with_engine env_ok conn_registering 7 rfl).2 30).2.1 (by decide)⟩

/-- C12: while no engine handle is held, setting keepalive-mechanism,
keepalive-interval or discover-binding only stores the value and makes no call at all;
a later successful `start_connecting` applies the outbound and the keepalive-interval
update right after the proxy and transport update, all after the engine was created,
and hands them a state that holds the engine and the values last stored. -/
theorem keepalive_and_outbound_deferred (env : Env) (s : SIPConnection)
    (hn : s.priv.sofia_nua = none) :
    (∀ m, sip_connection_set_property env s .PROP_KEEPALIVE_MECHANISM (.v_enum m)
      = { self := { s with priv := { s.priv with keepalive_mechanism := m } }
          events := [], result := some () }) ∧
    (∀ i, sip_connection_set_property env s .PROP_KEEPALIVE_INTERVAL (.v_int i)
      = { self := { s with priv := { s.priv with keepalive_interval := i } }
          events := [], result := some () }) ∧
    (∀ b, sip_connection_set_property env s .PROP_DISCOVER_BINDING (.v_boolean b)
      = { self := { s with priv := { s.priv with discover_binding := b } }
          events := [], result := some () }) ∧
    (∀ (s1 : SIPConnection) (err : Option GError),
      (sip_connection_start_connecting env s1).result = some (true, err) →
      ∃ created p rest,
        (sip_connection_start_connecting env s1).events
          = created :: .sip_conn_update_proxy_and_transport p ::
              .sip_conn_update_nua_outbound p ::
              .sip_conn_update_nua_keepalive_interval p :: rest ∧
        created.is_engine_created = true ∧
        p.sofia_nua = (sip_connection_start_connecting env s1).self.priv.sofia_nua ∧
        p.sofia_nua ≠ none ∧
        p.keepalive_mechanism = s1.priv.keepalive_mechanism ∧
        p.keepalive_interval = s1.priv.keepalive_interval ∧
        p.discover_binding = s1.priv.discover_binding) := by
  refine ⟨fun m => ?_, fun i => ?_, fun b => ?_, ?_⟩
  · simp [sip_connection_set_property, g_value_get_enum, hn]
  · simp [sip_connection_set_property, g_value_get_int, hn]
  · simp [sip_connection_set_property, g_value_get_boolean, hn]
  · intro s1 err hs
    obtain ⟨sofia, root, a, n, u, nua, r, _, _, _, _, _, _, h6, _, heq⟩ :=
      start_connecting_true_inv env s1 err hs
    have hc := nua_create_event_created env { s1.priv with account_url := some u } root
      (some n) u
    rw [h6] at hc
    rw [heq]
    exact ⟨_, { s1.priv with account_url := some u, sofia_nua := some nua }, _, rfl, hc,
      rfl, by simp, rfl, rfl, rfl⟩

/-- C12 at a concrete input: on the never-connected connection the interval `30` is
only stored; the connect that follows hands that value to the keepalive-interval update
after the engine was created. -/
theorem keepalive_and_outbound_deferred_witness :
    (sip_connection_set_property env_ok conn_alice .PROP_KEEPALIVE_INTERVAL (.v_int 30)).events
      = [] ∧
    (∃ created p rest,
      (sip_connection_start_connecting env_ok
        (sip_connection_set_property env_ok conn_alice .PROP_KEEPALIVE_INTERVAL
          (.v_int 30)).self).events
        = created :: .sip_conn_update_proxy_and_transport p ::
            .sip_conn_update_nua_outbound p ::
            .sip_conn_update_nua_keepalive_interval p :: rest ∧
      created.is_engine_created = true ∧
      p.keepalive_interval = 30) :=
  have h := keepalive_and_outbound_deferred env_ok conn_alice rfl
  ⟨congrArg Call.events (h.2.1 30),
   match h.2.2.2
      (sip_connection_set_property env_ok conn_alice .PROP_KEEPALIVE_INTERVAL (.v_int 30)).self
      none rfl with
   | ⟨created, p, rest, he, hc, _, _, _, hi, _⟩ => ⟨created, p, rest, he, hc, hi⟩⟩


/-- C13: property get/set round trip. For each of auth-user, password, transport,
loose-routing, keepalive-mechanism, keepalive-interval, discover-binding,
discover-stun, stun-server, stun-port, local-ip-address and local-port, for every
value `v` of the property's type and every state `s`, reading the property from the
state that `set_property` produced from `s` and `v` returns `v` (whatever the value
of that type the caller's `GValue` held before). -/
theorem property_get_set_round_trip (env : Env) (url_as_string : url_t → String)
    (s : SIPConnection) :
    (∀ v old, sip_connection_get_property url_as_string
      (sip_connection_set_property env s .PROP_AUTH_USER (.v_string v)).self
      .PROP_AUTH_USER (.v_string old) = .v_string v) ∧
    (∀ v old, sip_connection_get_property url_as_string
      (sip_connection_set_property env s .PROP_PASSWORD (.v_string v)).self
      .PROP_PASSWORD (.v_string old) = .v_string v) ∧
    (∀ v old, sip_connection_get_property url_as_string
      (sip_connection_set_property env s .PROP_TRANSPORT (.v_string v)).self
      .PROP_TRANSPORT (.v_string old) = .v_string v) ∧
    (∀ v old, sip_connection_get_property url_as_string
      (sip_connection_set_property env s .PROP_LOOSE_ROUTING (.v_boolean v)).self
      .PROP_LOOSE_ROUTING (.v_boolean old) = .v_boolean v) ∧
    (∀ v old, sip_connection_get_property url_as_string
      (sip_connection_set_property env s .PROP_KEEPALIVE_MECHANISM (.v_enum v)).self
      .PROP_KEEPALIVE_MECHANISM (.v_enum old) = .v_enum v) ∧
    (∀ v old, sip_connection_get_property url_as_string
      (sip_connection_set_property env s .PROP_KEEPALIVE_INTERVAL (.v_int v)).self
      .PROP_KEEPALIVE_INTERVAL (.v_int old) = .v_int v) ∧
    (∀ v old, sip_connection_get_property url_as_string
      (sip_connection_set_property env s .PROP_DISCOVER_BINDING (.v_boolean v)).self
      .PROP_DISCOVER_BINDING (.v_boolean old) = .v_boolean v) ∧
    (∀ v old, sip_connection_get_property url_as_string
      (sip_connection_set_property env s .PROP_DISCOVER_STUN (.v_boolean v)).self
      .PROP_DISCOVER_STUN (.v_boolean old) = .v_boolean v) ∧
    (∀ v old, sip_connection_get_property url_as_string
      (sip_connection_set_property env s .PROP_STUN_SERVER (.v_string v)).self
      .PROP_STUN_SERVER (.v_string old) = .v_string v) ∧
    (∀ v old, sip_connection_get_property url_as_string
      (sip_connection_set_property env s .PROP_STUN_PORT (.v_uint v)).self
      .PROP_STUN_PORT (.v_uint old) = .v_uint v) ∧
    (∀ v old, sip_connection_get_property url_as_string
      (sip_connection_set_property env s .PROP_LOCAL_IP_ADDRESS (.v_string v)).self
      .PROP_LOCAL_IP_ADDRESS (.v_string old) = .v_string v) ∧
    (∀ v old, sip_connection_get_property url_as_string
      (sip_connection_set_property env s .PROP_LOCAL_PORT (.v_uint v)).self
      .PROP_LOCAL_PORT (.v_uint old) = .v_uint v) := by
  refine ⟨?_, ?_, ?_, ?_, ?_, ?_, ?_, ?_, ?_, ?_, ?_, ?_⟩ <;> intro v old <;>
    simp only [sip_connection_set_property, sip_connection_get_property] <;>
    (try split) <;>
    simp [g_value_dup_string, g_value_get_string, g_value_get_boolean, g_value_get_enum,
      g_value_get_int, g_value_get_uint, g_value_set_string, g_value_set_boolean,
      g_value_set_enum, g_value_set_int, g_value_set_uint]

/-- C13 at concrete inputs: the stun-server and the keepalive interval read back on
the connected connection (where the interval is also applied to the engine). -/
theorem property_get_set_round_trip_witness :
    sip_connection_get_property (fun _ => "")
      (sip_connection_set_property env_ok conn_registering .PROP_STUN_SERVER
        (.v_string (some "stun.example.com"))).self
      .PROP_STUN_SERVER (.v_string none) = .v_string (some "stun.example.com") ∧
    sip_connection_get_property (fun _ => "")
      (sip_connection_set_property env_ok conn_registering .PROP_KEEPALIVE_INTERVAL
        (.v_int 30)).self
      .PROP_KEEPALIVE_INTERVAL (.v_int (-1)) = .v_int 30 :=
  ⟨(property_get_set_round_trip env_ok (fun _ => "") conn_registering).2.2.2.2.2.2.2.2.1
      (some "stun.example.com") none,
   (property_get_set_round_trip env_ok (fun _ => "") conn_registering).2.2.2.2.2.1 30 (-1)⟩

/-- C14, the code at the failing input: on the freshly configured connection, after
`set_property (extra-auth-user, "bob")` the field holds `bob`, yet
`get_property (extra-auth-user)` leaves the caller's value as it came (`NULL`), because
the getter has no case for the property; likewise for extra-auth-password. -/
theorem extra_auth_get_returns_nothing :
    (sip_connection_set_property env_ok conn_alice .PROP_EXTRA_AUTH_USER
      (.v_string (some "bob"))).self.priv.extra_auth_user = some "bob" ∧
    sip_connection_get_property (fun _ => "")
      (sip_connection_set_property env_ok conn_alice .PROP_EXTRA_AUTH_USER
        (.v_string (some "bob"))).self
      .PROP_EXTRA_AUTH_USER (.v_string none) = .v_string none ∧
    (sip_connection_set_property env_ok conn_alice .PROP_EXTRA_AUTH_PASSWORD
      (.v_string (some "secret"))).self.priv.extra_auth_password = some "secret" ∧
    sip_connection_get_property (fun _ => "")
      (sip_connection_set_property env_ok conn_alice .PROP_EXTRA_AUTH_PASSWORD
        (.v_string (some "secret"))).self
      .PROP_EXTRA_AUTH_PASSWORD (.v_string none) = .v_string none := by
  decide


/-- C15: the events of every successful `start_connecting` are, in this order: the
creation of the engine; the proxy and transport, outbound, keepalive-interval and
contact-feature updates; the optional start of STUN resolution or discovery; a request
for a dump of the stack parameters; the creation of the registration handle; the
register request. Hence exactly one register request is issued, in the same call,
whatever the STUN step started; it comes after the proxy and transport update; no
event of the call is delivered from outside, and the register request precedes every
resolver completion that arrives later. -/
theorem register_does_not_wait_for_stun (env : Env) (s : SIPConnection)
    (err : Option GError)
    (hs : (sip_connection_start_connecting env s).result = some (true, err)) :
    (∃ created p nua h r,
      (sip_connection_start_connecting env s).events
        = [created, .sip_conn_update_proxy_and_transport p, .sip_conn_update_nua_outbound p,
           .sip_conn_update_nua_keepalive_interval p,
           .sip_conn_update_nua_contact_features p]
          ++ start_connecting_stun p
          ++ [.nua_get_params nua, .sip_conn_create_register_handle p h (some r),
              .nua_register r] ∧
      created.is_engine_created = true ∧
      p.sofia_nua = some nua ∧
      p.stun_host = s.priv.stun_host ∧ p.discover_stun = s.priv.discover_stun ∧
      stun_actions (start_connecting_stun p)
        = spec_stun_mode s.priv.stun_host s.priv.discover_stun) ∧
    (sip_connection_start_connecting env s).events.countP Event.is_register_request = 1 ∧
    (sip_connection_start_connecting env s).events.all (fun e => !e.is_delivered) = true ∧
    none_before Event.is_proxy_and_transport_update Event.is_register_request
      (sip_connection_start_connecting env s).events = true ∧
    (∀ later,
      none_before Event.is_register_request Event.is_resolver_completion
        ((sip_connection_start_connecting env s).events ++ later) = true) := by
  obtain ⟨sofia, root, a, n, u, nua, r, _, _, _, _, _, _, h6, _, heq⟩ :=
    start_connecting_true_inv env s err hs
  have hc := nua_create_event_created env { s.priv with account_url := some u } root (some n) u
  rw [h6] at hc
  obtain ⟨o1, o2, o3, o4, o5⟩ := connect_events_order
    (start_connecting_nua_create_event env { s.priv with account_url := some u } root (some n) u)
    { s.priv with account_url := some u, sofia_nua := some nua }
    (start_connecting_stun { s.priv with account_url := some u, sofia_nua := some nua })
    nua (base_after_ensure env s a).self_handle r
    ⟨(nua_create_event_flags _ _ _ _ _).2.2.2.1, (nua_create_event_call_flags _ _ _ _ _).1,
      (nua_create_event_call_flags _ _ _ _ _).2.1, (nua_create_event_call_flags _ _ _ _ _).2.2⟩
    (stun_step_flags _)
  rw [heq]
  exact ⟨⟨_, _, nua, _, r, o1, hc, rfl, rfl, rfl, stun_actions_stun_step _⟩, o2, o3, o4, o5⟩

/-- C15 at a concrete input: with STUN host `stun.example.com` configured the resolution
is started and the register request still follows in the same call. -/
theorem register_does_not_wait_for_stun_witness :
    stun_actions (sip_connection_start_connecting env_ok
      (sip_connection_set_property env_ok conn_alice .PROP_STUN_SERVER
        (.v_string (some "stun.example.com"))).self).events
      = [.resolve "stun.example.com"] ∧
    (sip_connection_start_connecting env_ok
      (sip_connection_set_property env_ok conn_alice .PROP_STUN_SERVER
        (.v_string (some "stun.example.com"))).self).events.countP
      Event.is_register_request = 1 ∧
    none_before Event.is_register_request Event.is_resolver_completion
      ((sip_connection_start_connecting env_ok
        (sip_connection_set_property env_ok conn_alice .PROP_STUN_SERVER
          (.v_string (some "stun.example.com"))).self).events
        ++ [.resolver_completion (some "192.0.2.1")]) = true :=
  have h := register_does_not_wait_for_stun env_ok
    (sip_connection_set_property env_ok conn_alice .PROP_STUN_SERVER
      (.v_string (some "stun.example.com"))).self none rfl
  ⟨by decide, h.2.1, h.2.2.2.2 [.resolver_completion (some "192.0.2.1")]⟩


/-- C16: in every state that satisfies the preconditions of `shut_down` (adapter
present, no registration handle) the call performs exactly one teardown action: a
shutdown request on the engine if an engine handle is held, the direct destruction of
the adapter if none is held. The adapter is detached from the connection first (the
first event of the call, and the destroyed adapter no longer points back). Afterwards
the state holds neither adapter nor engine handle, and whatever calls follow on this
connection, none emits anything any more. -/
theorem shut_down_one_teardown_action (s : SIPConnection) (sofia : SIPConnectionSofia)
    (hr : s.priv.register_op = none) (hs : s.priv.sofia = some sofia) :
    (sip_connection_shut_down s).events.countP Event.is_engine_shutdown
      + (sip_connection_shut_down s).events.countP Event.is_sofia_destroy = 1 ∧
    (∀ nua, s.priv.sofia_nua = some nua →
      (sip_connection_shut_down s).events.filter
        (fun e => e.is_engine_shutdown || e.is_sofia_destroy) = [.nua_shutdown nua]) ∧
    (s.priv.sofia_nua = none →
      (sip_connection_shut_down s).events.filter
        (fun e => e.is_engine_shutdown || e.is_sofia_destroy)
        = [.sip_connection_sofia_destroy { sofia with conn := false }]) ∧
    (sip_connection_shut_down s).events.head? = some .sofia_conn_cleared ∧
    none_before Event.is_sofia_detach (fun e => e.is_engine_shutdown || e.is_sofia_destroy)
      (sip_connection_shut_down s).events = true ∧
    (sip_connection_shut_down s).self.priv.sofia = none ∧
    (sip_connection_shut_down s).self.priv.sofia_nua = none ∧
    (∀ (env : Env) (ops : List Op) (trace : List Event),
      (run env { self := (sip_connection_shut_down s).self, trace := trace, aborted := false }
        ops).trace = trace) := by
  have hafter : ∀ c : Call Unit, c.self.priv.sofia = none → c.self.priv.sofia_nua = none →
      c.self.priv.register_op = none →
      ∀ (env : Env) (ops : List Op) (trace : List Event),
        (run env { self := c.self, trace := trace, aborted := false } ops).trace = trace :=
    fun c h1 h2 h3 env ops trace => run_after_shut_down env ops _ h1 h2 h3
  cases hn : s.priv.sofia_nua with
  | none =>
    have hc := hafter (sip_connection_shut_down s)
    rw [shut_down_without_engine s sofia hr hs hn] at hc ⊢
    refine ⟨?_, ?_, ?_, rfl, ?_, rfl, rfl, hc rfl rfl hr⟩
    · simp [Event.is_engine_shutdown, Event.is_sofia_destroy]
    · intro nua h; cases h
    · intro _
      simp [Event.is_engine_shutdown, Event.is_sofia_destroy]
    · simp [none_before, Event.is_sofia_detach]
  | some nua =>
    have hc := hafter (sip_connection_shut_down s)
    rw [shut_down_with_engine s sofia nua hr hs hn] at hc ⊢
    refine ⟨?_, ?_, ?_, rfl, ?_, rfl, rfl, hc rfl rfl hr⟩
    · simp [Event.is_engine_shutdown, Event.is_sofia_destroy]
    · intro nua1 h
      cases h
      simp [Event.is_engine_shutdown, Event.is_sofia_destroy]
    · intro h; cases h
    · simp [none_before, Event.is_sofia_detach]

/-- C16 at concrete inputs: with engine `7` held the one action is its shutdown
request; on the never-connected connection it is the destruction of the adapter; after
either, a further `shut_down`, `disconnected` or property change emits nothing. -/
theorem shut_down_one_teardown_action_witness :
    (sip_connection_shut_down conn_unregistered).events.filter
      (fun e => e.is_engine_shutdown || e.is_sofia_destroy) = [.nua_shutdown 7] ∧
    (sip_connection_shut_down conn_alice).events.filter
      (fun e => e.is_engine_shutdown || e.is_sofia_destroy)
      = [.sip_connection_sofia_destroy ⟨false, some 1⟩] ∧
    (run env_ok
      { self := (sip_connection_shut_down conn_unregistered).self, trace := [], aborted := false }
      [.set_property .PROP_KEEPALIVE_INTERVAL (.v_int 30), .disconnected, .shut_down]).trace
      = [] :=
  ⟨(shut_down_one_teardown_action conn_unregistered ⟨true, some 1⟩ rfl rfl).2.1 7 rfl,
   (shut_down_one_teardown_action conn_alice ⟨true, some 1⟩ rfl rfl).2.2.1 rfl,
   (shut_down_one_teardown_action conn_unregistered ⟨true, some 1⟩ rfl rfl).2.2.2.2.2.2.2
     env_ok [.set_property .PROP_KEEPALIVE_INTERVAL (.v_int 30), .disconnected, .shut_down] []⟩

/-- C17: for every state, with or without a registration handle, the state that
`disconnected` produces has no registration handle, so a `shut_down` called on it can
only be stopped by the assertion on the adapter, never by the one on the registration
handle; and after any `start_connecting` that returned, successfully or with any of
its failures, `disconnected` followed by `shut_down` passes both assertions. -/
theorem disconnected_clears_registration (s : SIPConnection) :
    (sip_connection_disconnected s).self.priv.register_op = none ∧
    (sip_connection_disconnected s).result = some () ∧
    (sip_connection_disconnected s).self.priv.sofia = s.priv.sofia ∧
    ((sip_connection_shut_down (sip_connection_disconnected s).self).result = none
      ↔ s.priv.sofia = none) ∧
    (∀ (env : Env) (ret : Bool × Option GError),
      (sip_connection_start_connecting env s).result = some ret →
      (sip_connection_disconnected
        (sip_connection_start_connecting env s).self).self.priv.register_op = none ∧
      (sip_connection_shut_down (sip_connection_disconnected
        (sip_connection_start_connecting env s).self).self).result = some ()) := by
  have key : ∀ t : SIPConnection,
      (sip_connection_disconnected t).self.priv.register_op = none ∧
      (sip_connection_disconnected t).result = some () ∧
      (sip_connection_disconnected t).self.priv.sofia = t.priv.sofia := by
    intro t
    cases hr : t.priv.register_op with
    | none => rw [disconnected_without_handle t hr]; exact ⟨hr, rfl, rfl⟩
    | some r => rw [disconnected_with_handle t r hr]; exact ⟨rfl, rfl, rfl⟩
  have down : ∀ t : SIPConnection, t.priv.register_op = none →
      ((sip_connection_shut_down t).result = none ↔ t.priv.sofia = none) := by
    intro t hr
    cases hs : t.priv.sofia with
    | none => rw [shut_down_no_sofia t hs]; simp [Call.aborted]
    | some sofia =>
      cases hn : t.priv.sofia_nua with
      | none => rw [shut_down_without_engine t sofia hr hs hn]; simp
      | some nua => rw [shut_down_with_engine t sofia nua hr hs hn]; simp
  obtain ⟨k1, k2, k3⟩ := key s
  refine ⟨k1, k2, k3, ?_, ?_⟩
  · rw [down _ k1, k3]
  · intro env ret hret
    obtain ⟨sofia, hsofia⟩ := start_connecting_returns_sofia env s (by rw [hret]; simp)
    obtain ⟨j1, _, j3⟩ := key (sip_connection_start_connecting env s).self
    refine ⟨j1, ?_⟩
    have hne : (sip_connection_disconnected
        (sip_connection_start_connecting env s).self).self.priv.sofia ≠ none := by
      rw [j3, start_connecting_keeps_sofia, hsofia]
      simp
    cases hres : (sip_connection_shut_down (sip_connection_disconnected
        (sip_connection_start_connecting env s).self).self).result with
    | none => exact absurd ((down _ j1).mp hres) hne
    | some _ => rfl

/-- C17 at concrete inputs: after a successful connect, and after a connect that failed
for want of a registration handle, `disconnected` then `shut_down` run through. -/
theorem disconnected_clears_registration_witness :
    (sip_connection_start_connecting env_ok conn_alice).self.priv.register_op = some 9 ∧
    (sip_connection_shut_down (sip_connection_disconnected
      (sip_connection_start_connecting env_ok conn_alice).self).self).result = some () ∧
    (sip_connection_shut_down (sip_connection_disconnected
      (sip_connection_start_connecting env_no_register conn_alice).self).self).result
      = some () :=
  ⟨rfl,
   ((disconnected_clears_registration conn_alice).2.2.2.2 env_ok (true, none) rfl).2,
   ((disconnected_clears_registration conn_alice).2.2.2.2 env_no_register
      (false, some ⟨.TP_ERROR_NOT_AVAILABLE,
        "Unable to create registration handle for address sip:alice@example.com"⟩)
      (by decide)).2⟩


/-- C18, the code at failing inputs. With one name that does not normalise (failure at
index 0, nothing recorded) the rollback reads slot `0` of an array of length `0` and
releases from the client the `77` that the unset slot holds. With a valid name followed
by an invalid one (failure at index 1, handle `2` recorded) it first reads slot `1` of
an array of length `1` and releases `77`, and only then releases the recorded handle
`2`. Both calls answer with the error. -/
theorem request_handles_rollback_reads_unset_slot :
    (sip_connection_request_handles env_registry conn_connected (some registry_connected) 1
      [""] ":1.42").calls
      = [.tp_handle_ensure "" 0, .g_array_index 0 0,
         .tp_handle_client_release ":1.42" 77] ∧
    (sip_connection_request_handles env_registry conn_connected (some registry_connected) 1
      ["sip:bob@example.com", ""] ":1.42").calls
      = [.tp_handle_ensure "sip:bob@example.com" 2,
         .tp_handle_client_hold ":1.42" 2 true, .tp_handle_unref 2, .g_array_append_val 2,
         .tp_handle_ensure "" 0,
         .g_array_index 1 1, .tp_handle_client_release ":1.42" 77,
         .g_array_index 0 1, .tp_handle_client_release ":1.42" 2] ∧
    released_handles (sip_connection_request_handles env_registry conn_connected
      (some registry_connected) 1 ["sip:bob@example.com", ""] ":1.42").calls = [77, 2] ∧
    (sip_connection_request_handles env_registry conn_connected (some registry_connected) 1
      ["sip:bob@example.com", ""] ":1.42").calls.countP RepoCall.is_read_past_end = 1 ∧
    (sip_connection_request_handles env_registry conn_connected (some registry_connected) 1
      ["sip:bob@example.com", ""] ":1.42").reply
      = .dbus_g_method_return_error (some ⟨.TP_ERROR_INVALID_HANDLE, "invalid SIP URI"⟩) := by
  decide

/-- C19: on a connected connection, for a valid handle type with a repository and names
that can all be ensured and held for the client, RequestHandles answers with the
handles that `ensure` returned for the names, in order and with duplicates kept, so as
many handles as names, the `i`-th being the one ensured for the `i`-th name. Its calls
are, per name, the ensure, the hold on behalf of the client, the unref of the
connection's own reference and the append; hence every handle is held for the client
once per occurrence in the result, and the connection's reference is taken by `ensure`
and dropped once per occurrence as well, which leaves the connection's own count where
it was. Nothing is released and no slot beyond the array is read. -/
theorem request_handles_returns_ensured_handles {R : Type} (env : RequestHandlesEnv R)
    (self : SIPConnection) (repo : R) (handle_type : Nat) (names : List String)
    (client_name : String)
    (hst : self.parent.status = .TP_CONNECTION_STATUS_CONNECTED)
    (hty : 0 < handle_type ∧ handle_type < env.NUM_TP_HANDLE_TYPES)
    (hok : names_ensured_and_held env.repo_iface client_name names repo = true) :
    (sip_connection_request_handles env self (some repo) handle_type names client_name).reply
      = .tp_svc_connection_return_from_request_handles
          (ensured_handles env.repo_iface client_name names repo) ∧
    (ensured_handles env.repo_iface client_name names repo).length = names.length ∧
    (sip_connection_request_handles env self (some repo) handle_type names client_name).calls
      = request_handles_success_calls client_name
          (names.zip (ensured_handles env.repo_iface client_name names repo)) ∧
    (∀ (i : Nat) (h1 : i < names.length)
        (h2 : i < (ensured_handles env.repo_iface client_name names repo).length),
      RepoCall.tp_handle_ensure names[i]
          (ensured_handles env.repo_iface client_name names repo)[i]
        ∈ (sip_connection_request_handles env self (some repo) handle_type names
            client_name).calls) ∧
    (∀ h,
      (sip_connection_request_handles env self (some repo) handle_type names
          client_name).calls.count (.tp_handle_client_hold client_name h true)
        = (ensured_handles env.repo_iface client_name names repo).count h ∧
      (sip_connection_request_handles env self (some repo) handle_type names
          client_name).calls.count (.tp_handle_unref h)
        = (ensured_handles env.repo_iface client_name names repo).count h ∧
      ((sip_connection_request_handles env self (some repo) handle_type names
          client_name).calls.filterMap RepoCall.ensured).count h
        = (ensured_handles env.repo_iface client_name names repo).count h) ∧
    (sip_connection_request_handles env self (some repo) handle_type names
      client_name).calls.countP RepoCall.is_release = 0 ∧
    (sip_connection_request_handles env self (some repo) handle_type names
      client_name).calls.countP RepoCall.is_read_past_end = 0 := by
  have hvalid : tp_handle_type_is_valid env.NUM_TP_HANDLE_TYPES handle_type = none := by
    simp [tp_handle_type_is_valid, hty]
  have hrun : sip_connection_request_handles env self (some repo) handle_type names client_name
      = request_handles_loop env client_name names 0 repo [] := by
    simp [sip_connection_request_handles, hst, hvalid]
  obtain ⟨l1, l2⟩ := request_handles_loop_ok env client_name names 0 repo [] hok
  have hlen := ensured_handles_length env.repo_iface client_name names repo
  have hsnd : (names.zip (ensured_handles env.repo_iface client_name names repo)).map Prod.snd
      = ensured_handles env.repo_iface client_name names repo :=
    List.map_snd_zip _ _ (by rw [hlen])
  rw [hrun, l2]
  refine ⟨by simpa using l1, hlen, rfl, ?_, ?_, ?_, ?_⟩
  · intro i h1 h2
    have hmem : (names[i], (ensured_handles env.repo_iface client_name names repo)[i])
        ∈ names.zip (ensured_handles env.repo_iface client_name names repo) := by
      have hi : i < (names.zip
          (ensured_handles env.repo_iface client_name names repo)).length := by
        simp [List.length_zip, hlen, h1]
      have := List.getElem_mem hi
      simpa [List.getElem_zip] using this
    exact success_calls_ensure_mem client_name _ _ hmem
  · intro h
    obtain ⟨c1, c2, c3, _, _⟩ := success_calls_counts client_name h
      (names.zip (ensured_handles env.repo_iface client_name names repo))
    rw [hsnd] at c1 c2 c3
    exact ⟨c1, c2, c3⟩
  · exact (success_calls_counts client_name 0 _).2.2.2.1
  · exact (success_calls_counts client_name 0 _).2.2.2.2

/-- C19 at a concrete input: the connected connection of `sip:alice@example.com`
(handle `1`), a client asking for bob, carol and bob again. The answer is `[2, 3, 2]`;
afterwards the client holds three leases, bob's entry counts the two leases and
carol's the one, the reference the connection holds on its own handle is as it was,
and handle `2` inspects as bob's address. -/
theorem request_handles_returns_ensured_handles_witness :
    (sip_connection_request_handles env_registry conn_connected (some registry_connected) 1
      ["sip:bob@example.com", "sip:carol@example.com", "sip:bob@example.com"] ":1.42").reply
      = .tp_svc_connection_return_from_request_handles [2, 3, 2] ∧
    (sip_connection_request_handles env_registry conn_connected (some registry_connected) 1
      ["sip:bob@example.com", "sip:carol@example.com", "sip:bob@example.com"] ":1.42").repo
      = some { repo := ⟨[⟨"sip:alice@example.com", 1⟩, ⟨"sip:bob@example.com", 2⟩,
                         ⟨"sip:carol@example.com", 1⟩]⟩
               leases := [(":1.42", 2), (":1.42", 3), (":1.42", 2)] } ∧
    (sip_connection_request_handles env_registry conn_connected (some registry_connected) 1
      ["sip:bob@example.com", "sip:carol@example.com", "sip:bob@example.com"]
      ":1.42").calls.count (.tp_handle_unref 2) = 2 ∧
    tp_handle_inspect ⟨[⟨"sip:alice@example.com", 1⟩, ⟨"sip:bob@example.com", 2⟩,
      ⟨"sip:carol@example.com", 1⟩]⟩ 2 = some "sip:bob@example.com" :=
  have h := request_handles_returns_ensured_handles env_registry conn_connected
    registry_connected 1
    ["sip:bob@example.com", "sip:carol@example.com", "sip:bob@example.com"] ":1.42"
    rfl (by decide) (by decide)
  ⟨h.1.trans (by decide), by decide, (h.2.2.2.2.1 2).2.1.trans (by decide), by decide⟩


end SipConnection
